import Mathlib

/-!
Hyper-V TLFS definitions (xen/arch/x86/include/asm/guest/hyperv-tlfs.h)

A shallow embedding of the header: its constants, the bit-field layouts of the
MSR-backed unions, and the sizes and member offsets of its structures.

Machine integers are natural numbers with explicit bounds.  A 64-bit bit-field
container is described by the list of its declared field widths, in
declaration order; the x86-64 ABI allocates the fields from bit 0 upward.
-/

namespace HyperV

/-! ## Bit-field containers -/

/-- The declared widths of the bit-fields of one container, in declaration order. -/
abbrev Layout := List Nat

/-- Read the bit-field of width w that starts at bit off: (raw >> off) & (2^w - 1). -/
def extract (raw off w : Nat) : Nat := (raw >>> off) % 2 ^ w

/-- Read every field of a container whose first field starts at bit off. -/
def decodeFrom : Nat → Layout → Nat → List Nat
  | _, [], _ => []
  | off, w :: ws, raw => extract raw off w :: decodeFrom (off + w) ws raw

/-- Read every field of a container; the fields are allocated from bit 0 upward. -/
def decode (L : Layout) (raw : Nat) : List Nat := decodeFrom 0 L raw

/-- Store field values into a zeroed container whose first field starts at bit off.
A value is truncated to the width of its field, as a C bit-field store does. -/
def encodeFrom : Nat → Layout → List Nat → Nat
  | off, w :: ws, v :: vs => ((v % 2 ^ w) <<< off) ||| encodeFrom (off + w) ws vs
  | _, _, _ => 0

/-- Store field values into a zeroed container and read it as one integer. -/
def encode (L : Layout) (vs : List Nat) : Nat := encodeFrom 0 L vs

/-- The i-th declared field of a container holding raw. -/
def field (L : Layout) (i : Nat) (raw : Nat) : Nat := (decode L raw).getD i 0

/-- Every value fits the width of its field, and there is one value per field. -/
def Fits : Layout → List Nat → Prop
  | [], [] => True
  | w :: ws, v :: vs => v < 2 ^ w ∧ Fits ws vs
  | _, _ => False

/-- Total number of bits the declared fields occupy. -/
def totalWidth (L : Layout) : Nat := L.sum

/-- Bitwise complement of a 64-bit value (the C operator ~ on an unsigned 64-bit operand). -/
def not64 (x : Nat) : Nat := 2 ^ 64 - 1 - x % 2 ^ 64

/-! ## Page size -/

/-- Modelled from the spec: the macro BIT(pos, sfx) is defined in xen/bitops.h, outside
this header; it is the constant with the single bit pos set, of the unsigned long type
(64 bits on x86-64), which is what the "bit positions" of the constants surface are. -/
def BIT (pos : Nat) : Nat := (1 <<< pos) % 2 ^ 64

def HV_HYP_PAGE_SHIFT : Nat := 12
def HV_HYP_PAGE_SIZE : Nat := BIT HV_HYP_PAGE_SHIFT
def HV_HYP_PAGE_MASK : Nat := not64 (HV_HYP_PAGE_SIZE - 1)

/-! ## MSR-backed unions -/

/-- Fields of union hv_x64_msr_hypercall_contents:
enable:1, reserved:11, guest_physical_address:52. -/
def hv_x64_msr_hypercall_contents : Layout := [1, 11, 52]

def hv_x64_msr_hypercall_contents.enable (raw : Nat) : Nat :=
  field hv_x64_msr_hypercall_contents 0 raw

def hv_x64_msr_hypercall_contents.reserved (raw : Nat) : Nat :=
  field hv_x64_msr_hypercall_contents 1 raw

def hv_x64_msr_hypercall_contents.guest_physical_address (raw : Nat) : Nat :=
  field hv_x64_msr_hypercall_contents 2 raw

def HV_X64_MSR_HYPERCALL_ENABLE : Nat := 0x00000001
def HV_X64_MSR_HYPERCALL_PAGE_ADDRESS_SHIFT : Nat := 12
def HV_X64_MSR_HYPERCALL_PAGE_ADDRESS_MASK : Nat :=
  not64 ((1 <<< HV_X64_MSR_HYPERCALL_PAGE_ADDRESS_SHIFT) - 1)

/-- Fields of union hv_guest_os_id:
build_number:16, service_pack:8, minor:8, major:8, os:8, vendor:16. -/
def hv_guest_os_id : Layout := [16, 8, 8, 8, 8, 16]

/-- Fields of struct hv_reenlightenment_control:
vector:8, reserved1:8, enabled:1, reserved2:15, target_vp:32. -/
def hv_reenlightenment_control : Layout := [8, 8, 1, 15, 32]

/-- Fields of struct hv_tsc_emulation_control: enabled:1, reserved:63. -/
def hv_tsc_emulation_control : Layout := [1, 63]

/-- Fields of struct hv_tsc_emulation_status: inprogress:1, reserved:63. -/
def hv_tsc_emulation_status : Layout := [1, 63]

/-- Fields of union hv_stimer_config: enable:1, periodic:1, lazy:1, auto_enable:1,
apic_vector:8, direct_mode:1, reserved_z0:3, sintx:4, reserved_z1:44. -/
def hv_stimer_config : Layout := [1, 1, 1, 1, 8, 1, 3, 4, 44]

/-- Fields of union hv_synic_scontrol: enable:1, reserved:63. -/
def hv_synic_scontrol : Layout := [1, 63]

/-- Fields of union hv_synic_sint:
vector:8, reserved1:8, masked:1, auto_eoi:1, polling:1, reserved2:45. -/
def hv_synic_sint : Layout := [8, 8, 1, 1, 1, 45]

/-- Fields of union hv_synic_simp: simp_enabled:1, preserved:11, base_simp_gpa:52. -/
def hv_synic_simp : Layout := [1, 11, 52]

/-- Fields of union hv_synic_siefp: siefp_enabled:1, preserved:11, base_siefp_gpa:52. -/
def hv_synic_siefp : Layout := [1, 11, 52]

/-- Fields of the member page of union hv_gpa_page_range:
additional_pages:11, largepage:1, basepfn:52. -/
def hv_gpa_page_range : Layout := [11, 1, 52]

def hv_gpa_page_range.additional_pages (raw : Nat) : Nat := field hv_gpa_page_range 0 raw

def hv_gpa_page_range.largepage (raw : Nat) : Nat := field hv_gpa_page_range 1 raw

def hv_gpa_page_range.basepfn (raw : Nat) : Nat := field hv_gpa_page_range 2 raw

/-- The eleven 64-bit bit-field containers of the header other than the VP assist page MSR. -/
def layouts64 : List Layout :=
  [hv_x64_msr_hypercall_contents, hv_guest_os_id, hv_reenlightenment_control,
   hv_tsc_emulation_control, hv_tsc_emulation_status, hv_stimer_config, hv_synic_scontrol,
   hv_synic_sint, hv_synic_simp, hv_synic_siefp, hv_gpa_page_range]

/-- Fields of union hv_vp_assist_page_msr: enabled:1, reserved_preserved:11, pfn:48. -/
def hv_vp_assist_page_msr : Layout := [1, 11, 48]

def hv_vp_assist_page_msr.enabled (raw : Nat) : Nat := field hv_vp_assist_page_msr 0 raw

def hv_vp_assist_page_msr.reserved_preserved (raw : Nat) : Nat :=
  field hv_vp_assist_page_msr 1 raw

def hv_vp_assist_page_msr.pfn (raw : Nat) : Nat := field hv_vp_assist_page_msr 2 raw

def HV_X64_MSR_VP_ASSIST_PAGE_ENABLE : Nat := 0x00000001
def HV_X64_MSR_VP_ASSIST_PAGE_ADDRESS_SHIFT : Nat := 12
def HV_X64_MSR_VP_ASSIST_PAGE_ADDRESS_MASK : Nat :=
  not64 ((1 <<< HV_X64_MSR_VP_ASSIST_PAGE_ADDRESS_SHIFT) - 1)

/-- The number of pages one range entry describes: additional_pages + 1. -/
def hv_gpa_page_range.pages (raw : Nat) : Nat := hv_gpa_page_range.additional_pages raw + 1

def HV_MAX_FLUSH_PAGES : Nat := 2048

/-! ## Sizes and member offsets (natural alignment, nothing packed) -/

/-- Size and alignment of a C object type, in bytes. -/
structure CObj where
  size : Nat
  align : Nat
  deriving DecidableEq

def uint8_t : CObj := ⟨1, 1⟩
def uint16_t : CObj := ⟨2, 2⟩
def uint32_t : CObj := ⟨4, 4⟩
def uint64_t : CObj := ⟨8, 8⟩
def int64_t : CObj := ⟨8, 8⟩

/-- The type unsigned long, of the given size (8 on x86-64, 4 on a 32-bit build). -/
def unsigned_long (sz : Nat) : CObj := ⟨sz, sz⟩

/-- The least multiple of a that is at least n. -/
def roundUp (n a : Nat) : Nat := (n + a - 1) / a * a

/-- An array of n elements of type t. -/
def array (t : CObj) (n : Nat) : CObj := ⟨t.size * n, t.align⟩

/-- Byte offset of element i of an array of elements of type t. -/
def elem_offset (t : CObj) (i : Nat) : Nat := i * t.size

/-- Offsets of the members of a struct laid out from offset off: each member is placed
at the next multiple of its alignment. -/
def offsetsFrom : Nat → List CObj → List Nat
  | _, [] => []
  | off, t :: ts => roundUp off t.align :: offsetsFrom (roundUp off t.align + t.size) ts

/-- Offset just past the last member of a struct laid out from offset off. -/
def endFrom : Nat → List CObj → Nat
  | off, [] => off
  | off, t :: ts => endFrom (roundUp off t.align + t.size) ts

/-- The largest alignment among the members. -/
def maxAlign (ts : List CObj) : Nat := ts.foldl (fun a t => max a t.align) 1

/-- The largest size among the members. -/
def maxSize (ts : List CObj) : Nat := ts.foldl (fun s t => max s t.size) 0

/-- Offset of member i of a struct with the given members. -/
def offsetof (ts : List CObj) (i : Nat) : Nat := (offsetsFrom 0 ts).getD i 0

/-- A struct: members in order, the size rounded up to the struct alignment. -/
def struct_of (ts : List CObj) : CObj := ⟨roundUp (endFrom 0 ts) (maxAlign ts), maxAlign ts⟩

/-- A union: all members at offset 0, the size of the largest rounded up to the alignment. -/
def union_of (ts : List CObj) : CObj := ⟨roundUp (maxSize ts) (maxAlign ts), maxAlign ts⟩

/-- Bit position just past the last bit-field when fields of a unit-bit base type are
packed from bit position pos: a field that would straddle a unit starts the next unit. -/
def bitsEndFrom (unit : Nat) : Nat → Layout → Nat
  | pos, [] => pos
  | pos, w :: ws =>
    if pos % unit + w ≤ unit then bitsEndFrom unit (pos + w) ws
    else bitsEndFrom unit (roundUp pos unit + w) ws

/-- A struct whose members are all bit-fields of the base type. -/
def bitfields (base : CObj) (L : Layout) : CObj :=
  ⟨roundUp ((bitsEndFrom (8 * base.size) 0 L + 7) / 8) base.align, base.align⟩

namespace T

/-- The type union hv_gpa_page_range: uint64_t address_space, or the bit-field struct page. -/
def hv_gpa_page_range : CObj := union_of [uint64_t, bitfields uint64_t HyperV.hv_gpa_page_range]

end T

/-- HV_MAX_FLUSH_REP_COUNT: (HV_HYP_PAGE_SIZE - 2 * sizeof(uint64_t)) /
sizeof(union hv_gpa_page_range). -/
def HV_MAX_FLUSH_REP_COUNT : Nat :=
  (HV_HYP_PAGE_SIZE - 2 * uint64_t.size) / T.hv_gpa_page_range.size

/-- Members of struct hv_guest_mapping_flush_list:
address_space, flags, gpa_list[HV_MAX_FLUSH_REP_COUNT]. -/
def hv_guest_mapping_flush_list.members : List CObj :=
  [uint64_t, uint64_t, array T.hv_gpa_page_range HV_MAX_FLUSH_REP_COUNT]

def hv_guest_mapping_flush_list : CObj := struct_of hv_guest_mapping_flush_list.members

/-- Bytes taken by the two leading 64-bit fields and n range entries of a flush list. -/
def flush_list_bytes (n : Nat) : Nat := 2 * uint64_t.size + T.hv_gpa_page_range.size * n

/-! ## SynIC messages -/

def HV_SYNIC_SINT_COUNT : Nat := 16

def HV_MESSAGE_SIZE : Nat := 256
def HV_MESSAGE_PAYLOAD_BYTE_COUNT : Nat := 240
def HV_MESSAGE_PAYLOAD_QWORD_COUNT : Nat := 30

/-- The type union hv_message_flags: uint8_t asu8, or the uint8_t bit-fields
msg_pending:1, reserved:7. -/
def hv_message_flags : CObj := union_of [uint8_t, bitfields uint8_t [1, 7]]

/-- The type union hv_port_id: uint32_t asu32, or the uint32_t bit-fields id:24, reserved:8. -/
def hv_port_id : CObj := union_of [uint32_t, bitfields uint32_t [24, 8]]

/-- Members of struct hv_message_header: uint32_t message_type, uint8_t payload_size,
union hv_message_flags message_flags, uint8_t reserved[2],
union (uint64_t sender, union hv_port_id port). -/
def hv_message_header.members : List CObj :=
  [uint32_t, uint8_t, hv_message_flags, array uint8_t 2, union_of [uint64_t, hv_port_id]]

def hv_message_header : CObj := struct_of hv_message_header.members

/-- Members of struct hv_message: struct hv_message_header header,
union (uint64_t payload[HV_MESSAGE_PAYLOAD_QWORD_COUNT]) u. -/
def hv_message.members : List CObj :=
  [hv_message_header, union_of [array uint64_t HV_MESSAGE_PAYLOAD_QWORD_COUNT]]

def hv_message : CObj := struct_of hv_message.members

/-- Members of struct hv_message_page: struct hv_message sint_message[HV_SYNIC_SINT_COUNT]. -/
def hv_message_page.members : List CObj := [array hv_message HV_SYNIC_SINT_COUNT]

def hv_message_page : CObj := struct_of hv_message_page.members

/-- Byte offset of sint_message[i] within struct hv_message_page. -/
def hv_message_page.sint_message_offset (i : Nat) : Nat :=
  offsetof hv_message_page.members 0 + elem_offset hv_message i

/-! ## Reference TSC page -/

/-- Members of struct ms_hyperv_tsc_page: uint32_t tsc_sequence, uint32_t reserved1,
uint64_t tsc_scale, int64_t tsc_offset, uint64_t reserved2[509]. -/
def ms_hyperv_tsc_page.members : List CObj :=
  [uint32_t, uint32_t, uint64_t, int64_t, array uint64_t 509]

def ms_hyperv_tsc_page : CObj := struct_of ms_hyperv_tsc_page.members

/-- Members of HV_REFERENCE_TSC_PAGE: uint32_t tsc_sequence, uint32_t res1,
uint64_t tsc_scale, int64_t tsc_offset. -/
def HV_REFERENCE_TSC_PAGE.members : List CObj := [uint32_t, uint32_t, uint64_t, int64_t]

def HV_REFERENCE_TSC_PAGE : CObj := struct_of HV_REFERENCE_TSC_PAGE.members

/-! ## Event flags -/

def HV_EVENT_FLAGS_COUNT : Nat := 256 * 8

/-- HV_EVENT_FLAGS_LONG_COUNT: 256 / sizeof(unsigned long), for an unsigned long of sz bytes. -/
def HV_EVENT_FLAGS_LONG_COUNT (sz : Nat) : Nat := 256 / (unsigned_long sz).size

/-- The type union hv_synic_event_flags: unsigned long flags[HV_EVENT_FLAGS_LONG_COUNT]. -/
def hv_synic_event_flags (sz : Nat) : CObj :=
  union_of [array (unsigned_long sz) (HV_EVENT_FLAGS_LONG_COUNT sz)]

/-- Number of bits of the flags bitmap of union hv_synic_event_flags. -/
def hv_synic_event_flags.bits (sz : Nat) : Nat :=
  HV_EVENT_FLAGS_LONG_COUNT sz * (8 * (unsigned_long sz).size)

/-- Modelled from the spec: bitmap addressing comes from xen/bitops.h, outside this header;
flag i of a bitmap made of unsigned long words lives in word i / (bits per unsigned long). -/
def flag_word (sz i : Nat) : Nat := i / (8 * (unsigned_long sz).size)

/-! ## Enlightened VMCS clean fields -/

def HV_VMX_ENLIGHTENED_CLEAN_FIELD_NONE : Nat := 0
def HV_VMX_ENLIGHTENED_CLEAN_FIELD_IO_BITMAP : Nat := BIT 0
def HV_VMX_ENLIGHTENED_CLEAN_FIELD_MSR_BITMAP : Nat := BIT 1
def HV_VMX_ENLIGHTENED_CLEAN_FIELD_CONTROL_GRP2 : Nat := BIT 2
def HV_VMX_ENLIGHTENED_CLEAN_FIELD_CONTROL_GRP1 : Nat := BIT 3
def HV_VMX_ENLIGHTENED_CLEAN_FIELD_CONTROL_PROC : Nat := BIT 4
def HV_VMX_ENLIGHTENED_CLEAN_FIELD_CONTROL_EVENT : Nat := BIT 5
def HV_VMX_ENLIGHTENED_CLEAN_FIELD_CONTROL_ENTRY : Nat := BIT 6
def HV_VMX_ENLIGHTENED_CLEAN_FIELD_CONTROL_EXCPN : Nat := BIT 7
def HV_VMX_ENLIGHTENED_CLEAN_FIELD_CRDR : Nat := BIT 8
def HV_VMX_ENLIGHTENED_CLEAN_FIELD_CONTROL_XLAT : Nat := BIT 9
def HV_VMX_ENLIGHTENED_CLEAN_FIELD_GUEST_BASIC : Nat := BIT 10
def HV_VMX_ENLIGHTENED_CLEAN_FIELD_GUEST_GRP1 : Nat := BIT 11
def HV_VMX_ENLIGHTENED_CLEAN_FIELD_GUEST_GRP2 : Nat := BIT 12
def HV_VMX_ENLIGHTENED_CLEAN_FIELD_HOST_POINTER : Nat := BIT 13
def HV_VMX_ENLIGHTENED_CLEAN_FIELD_HOST_GRP1 : Nat := BIT 14
def HV_VMX_ENLIGHTENED_CLEAN_FIELD_ENLIGHTENMENTSCONTROL : Nat := BIT 15

def HV_VMX_ENLIGHTENED_CLEAN_FIELD_ALL : Nat := 0xFFFF

/-- The group flags, HV_VMX_ENLIGHTENED_CLEAN_FIELD_IO_BITMAP to
HV_VMX_ENLIGHTENED_CLEAN_FIELD_ENLIGHTENMENTSCONTROL, in the order of the header. -/
def clean_field_flags : List Nat :=
  [HV_VMX_ENLIGHTENED_CLEAN_FIELD_IO_BITMAP, HV_VMX_ENLIGHTENED_CLEAN_FIELD_MSR_BITMAP,
   HV_VMX_ENLIGHTENED_CLEAN_FIELD_CONTROL_GRP2, HV_VMX_ENLIGHTENED_CLEAN_FIELD_CONTROL_GRP1,
   HV_VMX_ENLIGHTENED_CLEAN_FIELD_CONTROL_PROC, HV_VMX_ENLIGHTENED_CLEAN_FIELD_CONTROL_EVENT,
   HV_VMX_ENLIGHTENED_CLEAN_FIELD_CONTROL_ENTRY, HV_VMX_ENLIGHTENED_CLEAN_FIELD_CONTROL_EXCPN,
   HV_VMX_ENLIGHTENED_CLEAN_FIELD_CRDR, HV_VMX_ENLIGHTENED_CLEAN_FIELD_CONTROL_XLAT,
   HV_VMX_ENLIGHTENED_CLEAN_FIELD_GUEST_BASIC, HV_VMX_ENLIGHTENED_CLEAN_FIELD_GUEST_GRP1,
   HV_VMX_ENLIGHTENED_CLEAN_FIELD_GUEST_GRP2, HV_VMX_ENLIGHTENED_CLEAN_FIELD_HOST_POINTER,
   HV_VMX_ENLIGHTENED_CLEAN_FIELD_HOST_GRP1,
   HV_VMX_ENLIGHTENED_CLEAN_FIELD_ENLIGHTENMENTSCONTROL]

/-- Clearing a group flag in the uint32_t member hv_clean_fields of struct
hv_enlightened_vmcs, the C statement hv_clean_fields &= ~flag: the complement is taken
in the 64-bit type of the flag and the result is truncated to the 32 bits of the member. -/
def clear_clean_field (v flag : Nat) : Nat := (v &&& not64 flag) % 2 ^ 32

/-! ## Hypercall control word and status -/

/-- Modelled from the spec: GENMASK_ULL(h, l) is defined in xen/bitops.h, outside this
header, and is named in the comments of the mask constants; it is the 64-bit value with
exactly the bits l to h set: ((~0ULL) << l) & (~0ULL >> (64 - 1 - h)). -/
def GENMASK_ULL (h l : Nat) : Nat := ((not64 0 <<< l) % 2 ^ 64) &&& (not64 0 >>> (64 - 1 - h))

def HV_HYPERCALL_RESULT_MASK : Nat := 0xffff
def HV_HYPERCALL_FAST_BIT : Nat := BIT 16
def HV_HYPERCALL_VARHEAD_OFFSET : Nat := 17
def HV_HYPERCALL_REP_COMP_OFFSET : Nat := 32
def HV_HYPERCALL_REP_COMP_MASK : Nat := (0xfff <<< HV_HYPERCALL_REP_COMP_OFFSET) % 2 ^ 64
def HV_HYPERCALL_REP_START_OFFSET : Nat := 48
def HV_HYPERCALL_REP_START_MASK : Nat := (0xfff <<< HV_HYPERCALL_REP_START_OFFSET) % 2 ^ 64

/-- The call code of a control word: raw & HV_HYPERCALL_RESULT_MASK. -/
def call_code (raw : Nat) : Nat := raw &&& HV_HYPERCALL_RESULT_MASK

/-- The fast flag of a control word: raw & HV_HYPERCALL_FAST_BIT (nonzero when fast). -/
def fast_flag (raw : Nat) : Nat := raw &&& HV_HYPERCALL_FAST_BIT

/-- The rep-comp field: (raw & HV_HYPERCALL_REP_COMP_MASK) >> HV_HYPERCALL_REP_COMP_OFFSET. -/
def rep_comp (raw : Nat) : Nat :=
  (raw &&& HV_HYPERCALL_REP_COMP_MASK) >>> HV_HYPERCALL_REP_COMP_OFFSET

/-- The rep-start field:
(raw & HV_HYPERCALL_REP_START_MASK) >> HV_HYPERCALL_REP_START_OFFSET. -/
def rep_start (raw : Nat) : Nat :=
  (raw &&& HV_HYPERCALL_REP_START_MASK) >>> HV_HYPERCALL_REP_START_OFFSET

/-- Replace the field selected by mask, which starts at bit off, by v:
(raw & ~mask) | ((v << off) & mask). -/
def set_field (raw mask off v : Nat) : Nat := (raw &&& not64 mask) ||| ((v <<< off) &&& mask)

def set_call_code (raw c : Nat) : Nat := set_field raw HV_HYPERCALL_RESULT_MASK 0 c

def set_fast_flag (raw b : Nat) : Nat := set_field raw HV_HYPERCALL_FAST_BIT 16 b

def set_rep_comp (raw n : Nat) : Nat :=
  set_field raw HV_HYPERCALL_REP_COMP_MASK HV_HYPERCALL_REP_COMP_OFFSET n

def set_rep_start (raw n : Nat) : Nat :=
  set_field raw HV_HYPERCALL_REP_START_MASK HV_HYPERCALL_REP_START_OFFSET n

/-- A control word built from a call code, a fast flag and the two rep fields. -/
def make_control (code : Nat) (fast : Bool) (comp start : Nat) : Nat :=
  code ||| (if fast then HV_HYPERCALL_FAST_BIT else 0)
    ||| ((comp <<< HV_HYPERCALL_REP_COMP_OFFSET) &&& HV_HYPERCALL_REP_COMP_MASK)
    ||| ((start <<< HV_HYPERCALL_REP_START_OFFSET) &&& HV_HYPERCALL_REP_START_MASK)

def HV_STATUS_SUCCESS : Nat := 0
def HV_STATUS_INVALID_HYPERCALL_CODE : Nat := 2
def HV_STATUS_INVALID_HYPERCALL_INPUT : Nat := 3
def HV_STATUS_INVALID_ALIGNMENT : Nat := 4
def HV_STATUS_INVALID_PARAMETER : Nat := 5
def HV_STATUS_INSUFFICIENT_MEMORY : Nat := 11
def HV_STATUS_INVALID_PORT_ID : Nat := 17
def HV_STATUS_INVALID_CONNECTION_ID : Nat := 18
def HV_STATUS_INSUFFICIENT_BUFFERS : Nat := 19

/-- The hypercall status codes the header defines, in its order. -/
def hv_status_codes : List Nat :=
  [HV_STATUS_SUCCESS, HV_STATUS_INVALID_HYPERCALL_CODE, HV_STATUS_INVALID_HYPERCALL_INPUT,
   HV_STATUS_INVALID_ALIGNMENT, HV_STATUS_INVALID_PARAMETER, HV_STATUS_INSUFFICIENT_MEMORY,
   HV_STATUS_INVALID_PORT_ID, HV_STATUS_INVALID_CONNECTION_ID,
   HV_STATUS_INSUFFICIENT_BUFFERS]

/-- The 64-bit status word that carries a status code: the code converted to uint64_t. -/
def status_word (c : Nat) : Nat := c % 2 ^ 64

def HVCALL_FLUSH_VIRTUAL_ADDRESS_SPACE : Nat := 0x0002
def HVCALL_FLUSH_VIRTUAL_ADDRESS_LIST : Nat := 0x0003
def HVCALL_NOTIFY_LONG_SPIN_WAIT : Nat := 0x0008
def HVCALL_SEND_IPI : Nat := 0x000b
def HVCALL_FLUSH_VIRTUAL_ADDRESS_SPACE_EX : Nat := 0x0013
def HVCALL_FLUSH_VIRTUAL_ADDRESS_LIST_EX : Nat := 0x0014
def HVCALL_SEND_IPI_EX : Nat := 0x0015
def HVCALL_POST_MESSAGE : Nat := 0x005c
def HVCALL_SIGNAL_EVENT : Nat := 0x005d
def HVCALL_FLUSH_GUEST_PHYSICAL_ADDRESS_SPACE : Nat := 0x00af
def HVCALL_FLUSH_GUEST_PHYSICAL_ADDRESS_LIST : Nat := 0x00b0
def HVCALL_EXT_CALL_QUERY_CAPABILITIES : Nat := 0x8001

/-- The hypercall call codes the header defines, in its order. -/
def hvcall_codes : List Nat :=
  [HVCALL_FLUSH_VIRTUAL_ADDRESS_SPACE, HVCALL_FLUSH_VIRTUAL_ADDRESS_LIST,
   HVCALL_NOTIFY_LONG_SPIN_WAIT, HVCALL_SEND_IPI, HVCALL_FLUSH_VIRTUAL_ADDRESS_SPACE_EX,
   HVCALL_FLUSH_VIRTUAL_ADDRESS_LIST_EX, HVCALL_SEND_IPI_EX, HVCALL_POST_MESSAGE,
   HVCALL_SIGNAL_EVENT, HVCALL_FLUSH_GUEST_PHYSICAL_ADDRESS_SPACE,
   HVCALL_FLUSH_GUEST_PHYSICAL_ADDRESS_LIST, HVCALL_EXT_CALL_QUERY_CAPABILITIES]

/-! ## MSR addresses -/

def HV_X64_MSR_GUEST_OS_ID : Nat := 0x40000000
def HV_X64_MSR_HYPERCALL : Nat := 0x40000001
def HV_X64_MSR_VP_INDEX : Nat := 0x40000002
def HV_X64_MSR_RESET : Nat := 0x40000003
def HV_X64_MSR_VP_RUNTIME : Nat := 0x40000010
def HV_X64_MSR_TIME_REF_COUNT : Nat := 0x40000020
def HV_X64_MSR_REFERENCE_TSC : Nat := 0x40000021
def HV_X64_MSR_TSC_FREQUENCY : Nat := 0x40000022
def HV_X64_MSR_APIC_FREQUENCY : Nat := 0x40000023
def HV_X64_MSR_EOI : Nat := 0x40000070
def HV_X64_MSR_ICR : Nat := 0x40000071
def HV_X64_MSR_TPR : Nat := 0x40000072
def HV_X64_MSR_VP_ASSIST_PAGE : Nat := 0x40000073
def HV_X64_MSR_SCONTROL : Nat := 0x40000080
def HV_X64_MSR_SVERSION : Nat := 0x40000081
def HV_X64_MSR_SIEFP : Nat := 0x40000082
def HV_X64_MSR_SIMP : Nat := 0x40000083
def HV_X64_MSR_EOM : Nat := 0x40000084
def HV_X64_MSR_SINT0 : Nat := 0x40000090
def HV_X64_MSR_SINT1 : Nat := 0x40000091
def HV_X64_MSR_SINT2 : Nat := 0x40000092
def HV_X64_MSR_SINT3 : Nat := 0x40000093
def HV_X64_MSR_SINT4 : Nat := 0x40000094
def HV_X64_MSR_SINT5 : Nat := 0x40000095
def HV_X64_MSR_SINT6 : Nat := 0x40000096
def HV_X64_MSR_SINT7 : Nat := 0x40000097
def HV_X64_MSR_SINT8 : Nat := 0x40000098
def HV_X64_MSR_SINT9 : Nat := 0x40000099
def HV_X64_MSR_SINT10 : Nat := 0x4000009A
def HV_X64_MSR_SINT11 : Nat := 0x4000009B
def HV_X64_MSR_SINT12 : Nat := 0x4000009C
def HV_X64_MSR_SINT13 : Nat := 0x4000009D
def HV_X64_MSR_SINT14 : Nat := 0x4000009E
def HV_X64_MSR_SINT15 : Nat := 0x4000009F
def HV_X64_MSR_STIMER0_CONFIG : Nat := 0x400000B0
def HV_X64_MSR_STIMER0_COUNT : Nat := 0x400000B1
def HV_X64_MSR_STIMER1_CONFIG : Nat := 0x400000B2
def HV_X64_MSR_STIMER1_COUNT : Nat := 0x400000B3
def HV_X64_MSR_STIMER2_CONFIG : Nat := 0x400000B4
def HV_X64_MSR_STIMER2_COUNT : Nat := 0x400000B5
def HV_X64_MSR_STIMER3_CONFIG : Nat := 0x400000B6
def HV_X64_MSR_STIMER3_COUNT : Nat := 0x400000B7
def HV_X64_MSR_GUEST_IDLE : Nat := 0x400000F0
def HV_X64_MSR_CRASH_P0 : Nat := 0x40000100
def HV_X64_MSR_CRASH_P1 : Nat := 0x40000101
def HV_X64_MSR_CRASH_P2 : Nat := 0x40000102
def HV_X64_MSR_CRASH_P3 : Nat := 0x40000103
def HV_X64_MSR_CRASH_P4 : Nat := 0x40000104
def HV_X64_MSR_CRASH_CTL : Nat := 0x40000105
def HV_X64_MSR_REENLIGHTENMENT_CONTROL : Nat := 0x40000106
def HV_X64_MSR_TSC_EMULATION_CONTROL : Nat := 0x40000107
def HV_X64_MSR_TSC_EMULATION_STATUS : Nat := 0x40000108

/-- The sixteen SINT MSRs, HV_X64_MSR_SINT0 to HV_X64_MSR_SINT15. -/
def sint_msrs : List Nat :=
  [HV_X64_MSR_SINT0, HV_X64_MSR_SINT1, HV_X64_MSR_SINT2, HV_X64_MSR_SINT3,
   HV_X64_MSR_SINT4, HV_X64_MSR_SINT5, HV_X64_MSR_SINT6, HV_X64_MSR_SINT7,
   HV_X64_MSR_SINT8, HV_X64_MSR_SINT9, HV_X64_MSR_SINT10, HV_X64_MSR_SINT11,
   HV_X64_MSR_SINT12, HV_X64_MSR_SINT13, HV_X64_MSR_SINT14, HV_X64_MSR_SINT15]

def HV_SYNIC_STIMER_COUNT : Nat := 4

/-- The CONFIG MSR of each synthetic timer, timer 0 first. -/
def stimer_config_msrs : List Nat :=
  [HV_X64_MSR_STIMER0_CONFIG, HV_X64_MSR_STIMER1_CONFIG, HV_X64_MSR_STIMER2_CONFIG,
   HV_X64_MSR_STIMER3_CONFIG]

/-- The COUNT MSR of each synthetic timer, timer 0 first. -/
def stimer_count_msrs : List Nat :=
  [HV_X64_MSR_STIMER0_COUNT, HV_X64_MSR_STIMER1_COUNT, HV_X64_MSR_STIMER2_COUNT,
   HV_X64_MSR_STIMER3_COUNT]

/-- Every MSR address the header defines other than the SINT MSRs, in its order. -/
def other_msrs : List Nat :=
  [HV_X64_MSR_GUEST_OS_ID, HV_X64_MSR_HYPERCALL, HV_X64_MSR_VP_INDEX, HV_X64_MSR_RESET,
   HV_X64_MSR_VP_RUNTIME, HV_X64_MSR_TIME_REF_COUNT, HV_X64_MSR_REFERENCE_TSC,
   HV_X64_MSR_TSC_FREQUENCY, HV_X64_MSR_APIC_FREQUENCY, HV_X64_MSR_EOI, HV_X64_MSR_ICR,
   HV_X64_MSR_TPR, HV_X64_MSR_VP_ASSIST_PAGE, HV_X64_MSR_SCONTROL, HV_X64_MSR_SVERSION,
   HV_X64_MSR_SIEFP, HV_X64_MSR_SIMP, HV_X64_MSR_EOM,
   HV_X64_MSR_STIMER0_CONFIG, HV_X64_MSR_STIMER0_COUNT, HV_X64_MSR_STIMER1_CONFIG,
   HV_X64_MSR_STIMER1_COUNT, HV_X64_MSR_STIMER2_CONFIG, HV_X64_MSR_STIMER2_COUNT,
   HV_X64_MSR_STIMER3_CONFIG, HV_X64_MSR_STIMER3_COUNT, HV_X64_MSR_GUEST_IDLE,
   HV_X64_MSR_CRASH_P0, HV_X64_MSR_CRASH_P1, HV_X64_MSR_CRASH_P2, HV_X64_MSR_CRASH_P3,
   HV_X64_MSR_CRASH_P4, HV_X64_MSR_CRASH_CTL, HV_X64_MSR_REENLIGHTENMENT_CONTROL,
   HV_X64_MSR_TSC_EMULATION_CONTROL, HV_X64_MSR_TSC_EMULATION_STATUS]

/-- The SINT index an MSR index in the SINT block selects: m - HV_X64_MSR_SINT0. -/
def sint_index (m : Nat) : Nat := m - HV_X64_MSR_SINT0

/-- The timer index an MSR index in the timer block selects:
(m - HV_X64_MSR_STIMER0_CONFIG) / 2. -/
def stimer_index (m : Nat) : Nat := (m - HV_X64_MSR_STIMER0_CONFIG) / 2

/-! ## Guest OS identity -/

def HV_LINUX_VENDOR_ID : Nat := 0x8100
def HV_XEN_VENDOR_ID : Nat := 0x8300

def hv_guest_os_id.build_number (raw : Nat) : Nat := field hv_guest_os_id 0 raw

def hv_guest_os_id.service_pack (raw : Nat) : Nat := field hv_guest_os_id 1 raw

def hv_guest_os_id.minor (raw : Nat) : Nat := field hv_guest_os_id 2 raw

def hv_guest_os_id.major (raw : Nat) : Nat := field hv_guest_os_id 3 raw

def hv_guest_os_id.os (raw : Nat) : Nat := field hv_guest_os_id 4 raw

def hv_guest_os_id.vendor (raw : Nat) : Nat := field hv_guest_os_id 5 raw

/-- Bits lo to hi of raw, both included, as the layout comment of the guest ID numbers
them ("62:56" is bits 56 to 62). -/
def bits (raw hi lo : Nat) : Nat := extract raw lo (hi + 1 - lo)

/-! ## SynIC register masks and fields -/

def HV_IPI_LOW_VECTOR : Nat := 0x10
def HV_IPI_HIGH_VECTOR : Nat := 0xff

def HV_SYNIC_VERSION_1 : Nat := 0x1
def HV_SYNIC_FIRST_VALID_VECTOR : Nat := 16

def HV_SYNIC_CONTROL_ENABLE : Nat := (1 <<< 0) % 2 ^ 64
def HV_SYNIC_SIMP_ENABLE : Nat := (1 <<< 0) % 2 ^ 64
def HV_SYNIC_SIEFP_ENABLE : Nat := (1 <<< 0) % 2 ^ 64
def HV_SYNIC_SINT_MASKED : Nat := (1 <<< 16) % 2 ^ 64
def HV_SYNIC_SINT_AUTO_EOI : Nat := (1 <<< 17) % 2 ^ 64
def HV_SYNIC_SINT_VECTOR_MASK : Nat := 0xFF

def hv_synic_sint.vector (raw : Nat) : Nat := field hv_synic_sint 0 raw

def hv_synic_sint.masked (raw : Nat) : Nat := field hv_synic_sint 2 raw

def hv_synic_sint.auto_eoi (raw : Nat) : Nat := field hv_synic_sint 3 raw

def hv_synic_sint.polling (raw : Nat) : Nat := field hv_synic_sint 4 raw

def hv_synic_scontrol.enable (raw : Nat) : Nat := field hv_synic_scontrol 0 raw

def hv_synic_simp.simp_enabled (raw : Nat) : Nat := field hv_synic_simp 0 raw

def hv_synic_simp.base_simp_gpa (raw : Nat) : Nat := field hv_synic_simp 2 raw

def hv_synic_siefp.siefp_enabled (raw : Nat) : Nat := field hv_synic_siefp 0 raw

def hv_synic_siefp.base_siefp_gpa (raw : Nat) : Nat := field hv_synic_siefp 2 raw

def hv_stimer_config.enable (raw : Nat) : Nat := field hv_stimer_config 0 raw

def hv_stimer_config.apic_vector (raw : Nat) : Nat := field hv_stimer_config 4 raw

def hv_stimer_config.direct_mode (raw : Nat) : Nat := field hv_stimer_config 5 raw

def hv_stimer_config.sintx (raw : Nat) : Nat := field hv_stimer_config 7 raw

def hv_reenlightenment_control.vector (raw : Nat) : Nat :=
  field hv_reenlightenment_control 0 raw

def hv_reenlightenment_control.enabled (raw : Nat) : Nat :=
  field hv_reenlightenment_control 2 raw

def hv_reenlightenment_control.target_vp (raw : Nat) : Nat :=
  field hv_reenlightenment_control 4 raw

/-! ## Enlightened VMCS -/

/-- Padding inserted before each member of a struct laid out from offset off. -/
def paddingFrom : Nat → List CObj → List Nat
  | _, [] => []
  | off, t :: ts =>
    (roundUp off t.align - off) :: paddingFrom (roundUp off t.align + t.size) ts

/-- Members of struct hv_enlightened_vmcs, in declaration order, each with its position in
the list and its name; hv_enlightenments_control is the struct of the uint32_t bit-fields
nested_flush_hypercall:1, msr_bitmap:1, reserved:30. -/
def hv_enlightened_vmcs.members : List CObj :=
  [uint32_t, -- 0 revision_id
   uint32_t, -- 1 abort
   uint16_t, -- 2 host_es_selector
   uint16_t, -- 3 host_cs_selector
   uint16_t, -- 4 host_ss_selector
   uint16_t, -- 5 host_ds_selector
   uint16_t, -- 6 host_fs_selector
   uint16_t, -- 7 host_gs_selector
   uint16_t, -- 8 host_tr_selector
   uint16_t, -- 9 padding16_1
   uint64_t, -- 10 host_ia32_pat
   uint64_t, -- 11 host_ia32_efer
   uint64_t, -- 12 host_cr0
   uint64_t, -- 13 host_cr3
   uint64_t, -- 14 host_cr4
   uint64_t, -- 15 host_ia32_sysenter_esp
   uint64_t, -- 16 host_ia32_sysenter_eip
   uint64_t, -- 17 host_rip
   uint32_t, -- 18 host_ia32_sysenter_cs
   uint32_t, -- 19 pin_based_vm_exec_control
   uint32_t, -- 20 vm_exit_controls
   uint32_t, -- 21 secondary_vm_exec_control
   uint64_t, -- 22 io_bitmap_a
   uint64_t, -- 23 io_bitmap_b
   uint64_t, -- 24 msr_bitmap
   uint16_t, -- 25 guest_es_selector
   uint16_t, -- 26 guest_cs_selector
   uint16_t, -- 27 guest_ss_selector
   uint16_t, -- 28 guest_ds_selector
   uint16_t, -- 29 guest_fs_selector
   uint16_t, -- 30 guest_gs_selector
   uint16_t, -- 31 guest_ldtr_selector
   uint16_t, -- 32 guest_tr_selector
   uint32_t, -- 33 guest_es_limit
   uint32_t, -- 34 guest_cs_limit
   uint32_t, -- 35 guest_ss_limit
   uint32_t, -- 36 guest_ds_limit
   uint32_t, -- 37 guest_fs_limit
   uint32_t, -- 38 guest_gs_limit
   uint32_t, -- 39 guest_ldtr_limit
   uint32_t, -- 40 guest_tr_limit
   uint32_t, -- 41 guest_gdtr_limit
   uint32_t, -- 42 guest_idtr_limit
   uint32_t, -- 43 guest_es_ar_bytes
   uint32_t, -- 44 guest_cs_ar_bytes
   uint32_t, -- 45 guest_ss_ar_bytes
   uint32_t, -- 46 guest_ds_ar_bytes
   uint32_t, -- 47 guest_fs_ar_bytes
   uint32_t, -- 48 guest_gs_ar_bytes
   uint32_t, -- 49 guest_ldtr_ar_bytes
   uint32_t, -- 50 guest_tr_ar_bytes
   uint64_t, -- 51 guest_es_base
   uint64_t, -- 52 guest_cs_base
   uint64_t, -- 53 guest_ss_base
   uint64_t, -- 54 guest_ds_base
   uint64_t, -- 55 guest_fs_base
   uint64_t, -- 56 guest_gs_base
   uint64_t, -- 57 guest_ldtr_base
   uint64_t, -- 58 guest_tr_base
   uint64_t, -- 59 guest_gdtr_base
   uint64_t, -- 60 guest_idtr_base
   array uint64_t 3, -- 61 padding64_1[3]
   uint64_t, -- 62 vm_exit_msr_store_addr
   uint64_t, -- 63 vm_exit_msr_load_addr
   uint64_t, -- 64 vm_entry_msr_load_addr
   uint64_t, -- 65 cr3_target_value0
   uint64_t, -- 66 cr3_target_value1
   uint64_t, -- 67 cr3_target_value2
   uint64_t, -- 68 cr3_target_value3
   uint32_t, -- 69 page_fault_error_code_mask
   uint32_t, -- 70 page_fault_error_code_match
   uint32_t, -- 71 cr3_target_count
   uint32_t, -- 72 vm_exit_msr_store_count
   uint32_t, -- 73 vm_exit_msr_load_count
   uint32_t, -- 74 vm_entry_msr_load_count
   uint64_t, -- 75 tsc_offset
   uint64_t, -- 76 virtual_apic_page_addr
   uint64_t, -- 77 vmcs_link_pointer
   uint64_t, -- 78 guest_ia32_debugctl
   uint64_t, -- 79 guest_ia32_pat
   uint64_t, -- 80 guest_ia32_efer
   uint64_t, -- 81 guest_pdptr0
   uint64_t, -- 82 guest_pdptr1
   uint64_t, -- 83 guest_pdptr2
   uint64_t, -- 84 guest_pdptr3
   uint64_t, -- 85 guest_pending_dbg_exceptions
   uint64_t, -- 86 guest_sysenter_esp
   uint64_t, -- 87 guest_sysenter_eip
   uint32_t, -- 88 guest_activity_state
   uint32_t, -- 89 guest_sysenter_cs
   uint64_t, -- 90 cr0_guest_host_mask
   uint64_t, -- 91 cr4_guest_host_mask
   uint64_t, -- 92 cr0_read_shadow
   uint64_t, -- 93 cr4_read_shadow
   uint64_t, -- 94 guest_cr0
   uint64_t, -- 95 guest_cr3
   uint64_t, -- 96 guest_cr4
   uint64_t, -- 97 guest_dr7
   uint64_t, -- 98 host_fs_base
   uint64_t, -- 99 host_gs_base
   uint64_t, -- 100 host_tr_base
   uint64_t, -- 101 host_gdtr_base
   uint64_t, -- 102 host_idtr_base
   uint64_t, -- 103 host_rsp
   uint64_t, -- 104 ept_pointer
   uint16_t, -- 105 virtual_processor_id
   array uint16_t 3, -- 106 padding16_2[3]
   array uint64_t 5, -- 107 padding64_2[5]
   uint64_t, -- 108 guest_physical_address
   uint32_t, -- 109 vm_instruction_error
   uint32_t, -- 110 vm_exit_reason
   uint32_t, -- 111 vm_exit_intr_info
   uint32_t, -- 112 vm_exit_intr_error_code
   uint32_t, -- 113 idt_vectoring_info_field
   uint32_t, -- 114 idt_vectoring_error_code
   uint32_t, -- 115 vm_exit_instruction_len
   uint32_t, -- 116 vmx_instruction_info
   uint64_t, -- 117 exit_qualification
   uint64_t, -- 118 exit_io_instruction_ecx
   uint64_t, -- 119 exit_io_instruction_esi
   uint64_t, -- 120 exit_io_instruction_edi
   uint64_t, -- 121 exit_io_instruction_eip
   uint64_t, -- 122 guest_linear_address
   uint64_t, -- 123 guest_rsp
   uint64_t, -- 124 guest_rflags
   uint32_t, -- 125 guest_interruptibility_info
   uint32_t, -- 126 cpu_based_vm_exec_control
   uint32_t, -- 127 exception_bitmap
   uint32_t, -- 128 vm_entry_controls
   uint32_t, -- 129 vm_entry_intr_info_field
   uint32_t, -- 130 vm_entry_exception_error_code
   uint32_t, -- 131 vm_entry_instruction_len
   uint32_t, -- 132 tpr_threshold
   uint64_t, -- 133 guest_rip
   uint32_t, -- 134 hv_clean_fields
   uint32_t, -- 135 hv_padding_32
   uint32_t, -- 136 hv_synthetic_controls
   bitfields uint32_t [1, 1, 30], -- 137 hv_enlightenments_control
   uint32_t, -- 138 hv_vp_id
   uint64_t, -- 139 hv_vm_id
   uint64_t, -- 140 partition_assist_page
   array uint64_t 4, -- 141 padding64_4[4]
   uint64_t, -- 142 guest_bndcfgs
   array uint64_t 7, -- 143 padding64_5[7]
   uint64_t, -- 144 xss_exit_bitmap
   array uint64_t 7] -- 145 padding64_6[7]

def hv_enlightened_vmcs : CObj := struct_of hv_enlightened_vmcs.members

/-- Position of revision_id among the members of struct hv_enlightened_vmcs. -/
def hv_enlightened_vmcs.idx_revision_id : Nat := 0

/-- Position of hv_clean_fields among the members of struct hv_enlightened_vmcs. -/
def hv_enlightened_vmcs.idx_hv_clean_fields : Nat := 134

/-- Position of hv_vp_id among the members of struct hv_enlightened_vmcs. -/
def hv_enlightened_vmcs.idx_hv_vp_id : Nat := 138

/-- Position of hv_vm_id among the members of struct hv_enlightened_vmcs. -/
def hv_enlightened_vmcs.idx_hv_vm_id : Nat := 139

/-! ## VP sets -/

/-- First enumerator of enum HV_GENERIC_SET_FORMAT; C numbers enumerators from 0. -/
def HV_GENERIC_SET_SPARSE_4K : Nat := 0

/-- Second enumerator of enum HV_GENERIC_SET_FORMAT. -/
def HV_GENERIC_SET_ALL : Nat := 1

/-- Members of struct hv_vpset: uint64_t format, uint64_t valid_bank_mask,
uint64_t bank_contents[] (a flexible array member, which adds no size). -/
def hv_vpset.members : List CObj := [uint64_t, uint64_t, array uint64_t 0]

def hv_vpset : CObj := struct_of hv_vpset.members

/-- Members of struct hv_send_ipi: uint32_t vector, uint32_t reserved, uint64_t cpu_mask. -/
def hv_send_ipi.members : List CObj := [uint32_t, uint32_t, uint64_t]

def hv_send_ipi : CObj := struct_of hv_send_ipi.members

/-- Members of struct hv_send_ipi_ex: uint32_t vector, uint32_t reserved,
struct hv_vpset vp_set. -/
def hv_send_ipi_ex.members : List CObj := [uint32_t, uint32_t, hv_vpset]

def hv_send_ipi_ex : CObj := struct_of hv_send_ipi_ex.members

/-- Members of struct hv_tlb_flush_ex: uint64_t address_space, uint64_t flags,
struct hv_vpset hv_vp_set. -/
def hv_tlb_flush_ex.members : List CObj := [uint64_t, uint64_t, hv_vpset]

def hv_tlb_flush_ex : CObj := struct_of hv_tlb_flush_ex.members

/-- Modelled from the spec: the number of trailing bank_contents words of a VP set is the
population count of its 64-bit valid_bank_mask, one word per bit set. -/
def bank_count (valid_bank_mask : Nat) : Nat :=
  ((List.range 64).filter (fun i => valid_bank_mask.testBit i)).length

/-- Bytes a struct hv_vpset with n bank_contents words occupies. -/
def hv_vpset.bytes (n : Nat) : Nat :=
  offsetof hv_vpset.members 2 + elem_offset uint64_t n

/-- Bytes a struct hv_send_ipi_ex occupies when its VP set has n bank_contents words. -/
def hv_send_ipi_ex.bytes (n : Nat) : Nat :=
  offsetof hv_send_ipi_ex.members 2 + hv_vpset.bytes n

/-- Bytes a struct hv_tlb_flush_ex occupies when its VP set has n bank_contents words. -/
def hv_tlb_flush_ex.bytes (n : Nat) : Nat :=
  offsetof hv_tlb_flush_ex.members 2 + hv_vpset.bytes n

/-! ## Reference clock -/

/-- Modelled from the spec: NSEC_PER_SEC is defined outside this header; it is the number
of nanoseconds in a second. -/
def NSEC_PER_SEC : Nat := 1000000000

/-- HV_CLOCK_HZ: (NSEC_PER_SEC/100), for the given value of NSEC_PER_SEC. -/
def HV_CLOCK_HZ (nsec_per_sec : Nat) : Nat := nsec_per_sec / 100

/-- Nanoseconds in t ticks of the reference clock, computed in 64 bits:
t * (NSEC_PER_SEC / HV_CLOCK_HZ). -/
def ticks_to_ns (t : Nat) : Nat := (t * (NSEC_PER_SEC / HV_CLOCK_HZ NSEC_PER_SEC)) % 2 ^ 64

/-- Ticks of the reference clock in ns nanoseconds: ns / (NSEC_PER_SEC / HV_CLOCK_HZ). -/
def ns_to_ticks (ns : Nat) : Nat := ns / (NSEC_PER_SEC / HV_CLOCK_HZ NSEC_PER_SEC)

/-! ## Theorems -/

/-! ### Bit-field containers: general facts -/

theorem decodeFrom_shift (ws : Layout) (off raw : Nat) :
    decodeFrom off ws raw = decodeFrom 0 ws (raw >>> off) := by
  induction ws generalizing off raw with
  | nil => simp [decodeFrom]
  | cons w ws ih =>
    simp only [decodeFrom, extract, Nat.shiftRight_zero, Nat.zero_add]
    rw [ih (off + w) raw, ih w (raw >>> off), Nat.shiftRight_add]

theorem encodeFrom_shift (ws : Layout) (vs : List Nat) (off : Nat) :
    encodeFrom off ws vs = encodeFrom 0 ws vs <<< off := by
  induction ws generalizing off vs with
  | nil => simp [encodeFrom]
  | cons w ws ih =>
    cases vs with
    | nil => simp [encodeFrom]
    | cons v vs =>
      simp only [encodeFrom, Nat.shiftLeft_zero, Nat.zero_add]
      rw [ih vs (off + w), ih vs w, Nat.add_comm off w, Nat.shiftLeft_add]
      apply Nat.eq_of_testBit_eq
      intro i
      simp only [Nat.testBit_or, Nat.testBit_shiftLeft, Bool.and_or_distrib_left]

theorem decode_cons (w : Nat) (ws : Layout) (r : Nat) :
    decode (w :: ws) r = r % 2 ^ w :: decode ws (r / 2 ^ w) := by
  simp only [decode, decodeFrom, extract, Nat.shiftRight_zero, Nat.zero_add]
  rw [decodeFrom_shift ws w r, Nat.shiftRight_eq_div_pow]

theorem encode_cons (w : Nat) (ws : Layout) (v : Nat) (vs : List Nat) :
    encode (w :: ws) (v :: vs) = v % 2 ^ w + 2 ^ w * encode ws vs := by
  simp only [encode, encodeFrom, Nat.shiftLeft_zero, Nat.zero_add]
  rw [encodeFrom_shift ws vs w, Nat.shiftLeft_eq, Nat.mul_comm (encodeFrom 0 ws vs),
    Nat.lor_comm, Nat.add_comm]
  exact (Nat.mul_add_lt_is_or (Nat.mod_lt _ (Nat.two_pow_pos w)) _).symm

theorem encode_decode_mod (ws : Layout) (r : Nat) :
    encode ws (decode ws r) = r % 2 ^ totalWidth ws := by
  induction ws generalizing r with
  | nil => simp [encode, decode, decodeFrom, encodeFrom, totalWidth, Nat.mod_one]
  | cons w ws ih =>
    rw [decode_cons, encode_cons, ih, Nat.mod_mod]
    simp only [totalWidth, List.sum_cons, Nat.pow_add] at *
    rw [Nat.mod_mul]

theorem decode_encode_of_fits (ws : Layout) (vs : List Nat) (h : Fits ws vs) :
    decode ws (encode ws vs) = vs := by
  induction ws generalizing vs with
  | nil =>
    cases vs with
    | nil => rfl
    | cons v vs => exact absurd h (by simp [Fits])
  | cons w ws ih =>
    cases vs with
    | nil => exact absurd h (by simp [Fits])
    | cons v vs =>
      obtain ⟨hv, hvs⟩ := h
      rw [encode_cons, decode_cons, Nat.mod_eq_of_lt hv, Nat.add_mul_mod_self_left,
        Nat.mod_eq_of_lt hv, Nat.add_mul_div_left _ _ (Nat.two_pow_pos w),
        Nat.div_eq_of_lt hv, Nat.zero_add, ih vs hvs]

theorem encode_lt (ws : Layout) (vs : List Nat) : encode ws vs < 2 ^ totalWidth ws := by
  induction ws generalizing vs with
  | nil => simp [encode, encodeFrom, totalWidth]
  | cons w ws ih =>
    cases vs with
    | nil => simp [encode, encodeFrom, Nat.two_pow_pos]
    | cons v vs =>
      rw [encode_cons]
      have h1 := ih vs
      have h2 : v % 2 ^ w < 2 ^ w := Nat.mod_lt _ (Nat.two_pow_pos w)
      simp only [totalWidth, List.sum_cons, Nat.pow_add] at *
      calc v % 2 ^ w + 2 ^ w * encode ws vs
          < 2 ^ w + 2 ^ w * encode ws vs := by omega
        _ = 2 ^ w * (encode ws vs + 1) := by ring
        _ ≤ 2 ^ w * 2 ^ ws.sum := Nat.mul_le_mul_left _ h1

theorem mem_layouts64_width (L : Layout) (hL : L ∈ layouts64) : totalWidth L = 64 := by
  simp only [layouts64, List.mem_cons, List.mem_singleton, List.not_mem_nil, or_false] at hL
  rcases hL with h | h | h | h | h | h | h | h | h | h | h <;> subst h <;> rfl

theorem testBit_not64 (x j : Nat) :
    (not64 x).testBit j = (decide (j < 64) && !x.testBit j) := by
  have h : not64 x = 2 ^ 64 - (x % 2 ^ 64 + 1) := by
    simp only [not64]
    omega
  rw [h, Nat.testBit_two_pow_sub_succ (Nat.mod_lt _ (Nat.two_pow_pos 64)),
    Nat.testBit_mod_two_pow]
  by_cases hj : j < 64 <;> simp [hj]

theorem testBit_clear_clean_field (v k j : Nat) (hj : j < 32) :
    (clear_clean_field v (2 ^ k)).testBit j = (v.testBit j && !decide (k = j)) := by
  have hj64 : j < 64 := by omega
  simp only [clear_clean_field, Nat.testBit_mod_two_pow, Nat.testBit_and, testBit_not64,
    Nat.testBit_two_pow]
  simp [hj, hj64]

theorem clean_field_flags_eq : clean_field_flags = (List.range 16).map (fun k => 2 ^ k) := by
  decide

theorem testBit_false_of_lt_64 (m i : Nat) (hm : m < 2 ^ 64) (hi : 64 ≤ i) :
    m.testBit i = false :=
  Nat.testBit_lt_two_pow (Nat.lt_of_lt_of_le hm (Nat.pow_le_pow_right (by norm_num) hi))

theorem set_field_and_other (raw m1 m2 off v : Nat) (hd : m1 &&& m2 = 0) (h1 : m1 < 2 ^ 64) :
    set_field raw m2 off v &&& m1 = raw &&& m1 := by
  apply Nat.eq_of_testBit_eq
  intro i
  have hdi : (m1.testBit i && m2.testBit i) = false := by
    rw [← Nat.testBit_and, hd, Nat.zero_testBit]
  simp only [set_field, Nat.testBit_and, Nat.testBit_or, testBit_not64]
  by_cases hi : i < 64
  · cases h1i : m1.testBit i <;> cases h2i : m2.testBit i <;> simp_all
  · have := testBit_false_of_lt_64 m1 i h1 (by omega)
    simp [this]

theorem and_mask_eq_extract (x off w : Nat) :
    (x &&& ((2 ^ w - 1) <<< off)) >>> off = extract x off w := by
  apply Nat.eq_of_testBit_eq
  intro i
  simp only [extract, Nat.testBit_shiftRight, Nat.testBit_and, Nat.testBit_shiftLeft,
    Nat.testBit_two_pow_sub_one, Nat.testBit_mod_two_pow]
  by_cases hi : i < w <;> simp [hi]

theorem set_field_extract (raw off w v : Nat) (hv : v < 2 ^ w) :
    (set_field raw ((2 ^ w - 1) <<< off) off v &&& ((2 ^ w - 1) <<< off)) >>> off = v := by
  apply Nat.eq_of_testBit_eq
  intro i
  simp only [set_field, Nat.testBit_shiftRight, Nat.testBit_and, Nat.testBit_or,
    Nat.testBit_shiftLeft, Nat.testBit_two_pow_sub_one, testBit_not64]
  by_cases hi : i < w
  · simp [hi]
  · have : v.testBit i = false :=
      Nat.testBit_lt_two_pow (Nat.lt_of_lt_of_le hv (Nat.pow_le_pow_right (by norm_num) (by omega)))
    simp [hi, this]
theorem testBit_field_mask (w off i : Nat) :
    ((2 ^ w - 1) <<< off).testBit i = decide (off ≤ i ∧ i < off + w) := by
  simp only [Nat.testBit_shiftLeft, Nat.testBit_two_pow_sub_one]
  by_cases h1 : off ≤ i
  · by_cases h2 : i - off < w
    · have : i < off + w := by omega
      simp [h1, h2, this]
    · have : ¬ i < off + w := by omega
      simp [h1, h2, this]
  · simp [h1]

theorem result_mask_eq : HV_HYPERCALL_RESULT_MASK = (2 ^ 16 - 1) <<< 0 := by decide

theorem fast_bit_eq : HV_HYPERCALL_FAST_BIT = (2 ^ 1 - 1) <<< 16 := by decide

theorem rep_comp_mask_eq :
    HV_HYPERCALL_REP_COMP_MASK = (2 ^ 12 - 1) <<< HV_HYPERCALL_REP_COMP_OFFSET := by decide

theorem rep_start_mask_eq :
    HV_HYPERCALL_REP_START_MASK = (2 ^ 12 - 1) <<< HV_HYPERCALL_REP_START_OFFSET := by decide

theorem call_code_make_control (c : Nat) (hc : c < 2 ^ 16) (fast : Bool) (comp start : Nat) :
    call_code (make_control c fast comp start) = c := by
  apply Nat.eq_of_testBit_eq
  intro i
  simp only [call_code, make_control, Nat.testBit_and, Nat.testBit_or]
  rw [rep_comp_mask_eq, rep_start_mask_eq, result_mask_eq, testBit_field_mask,
    testBit_field_mask, testBit_field_mask]
  simp only [HV_HYPERCALL_REP_COMP_OFFSET, HV_HYPERCALL_REP_START_OFFSET]
  by_cases hi : i < 16
  · have hf : (if fast = true then HV_HYPERCALL_FAST_BIT else 0).testBit i = false := by
      cases fast
      · simp
      · rw [if_pos rfl, fast_bit_eq, testBit_field_mask]
        simp
        omega
    have h1 : ¬ (32 ≤ i ∧ i < 32 + 12) := by omega
    have h2 : ¬ (48 ≤ i ∧ i < 48 + 12) := by omega
    simp [hf, h1, h2, hi]
  · have hci : c.testBit i = false :=
      Nat.testBit_lt_two_pow
        (Nat.lt_of_lt_of_le hc (Nat.pow_le_pow_right (by norm_num) (by omega)))
    simp [hci, hi]
theorem and_two_pow_ne_zero_iff (raw k : Nat) :
    raw &&& 2 ^ k ≠ 0 ↔ extract raw k 1 = 1 := by
  have h : raw &&& 2 ^ k = 2 ^ k * (raw / 2 ^ k % 2) := by
    apply Nat.eq_of_testBit_eq
    intro i
    rcases Nat.mod_two_eq_zero_or_one (raw / 2 ^ k) with h0 | h0
    · have : raw.testBit k = false := by simp [Nat.testBit_to_div_mod, h0]
      rw [h0]
      simp only [Nat.testBit_and, Nat.testBit_two_pow, Nat.mul_zero, Nat.zero_testBit]
      by_cases hik : k = i
      · subst hik; simp [this]
      · simp [hik]
    · have : raw.testBit k = true := by simp [Nat.testBit_to_div_mod, h0]
      rw [h0]
      simp only [Nat.testBit_and, Nat.testBit_two_pow, Nat.mul_one]
      by_cases hik : k = i
      · subst hik; simp [this]
      · simp [hik]
  rw [h, extract, Nat.shiftRight_eq_div_pow, pow_one]
  rcases Nat.mod_two_eq_zero_or_one (raw / 2 ^ k) with h0 | h0 <;> simp [h0]

theorem shiftLeft_shiftRight_eq_and_not64 (raw k : Nat) (h : raw < 2 ^ 64) :
    (raw >>> k) <<< k = raw &&& not64 ((1 <<< k) - 1) := by
  apply Nat.eq_of_testBit_eq
  intro i
  rw [Nat.one_shiftLeft]
  simp only [Nat.testBit_shiftLeft, Nat.testBit_shiftRight, Nat.testBit_and, testBit_not64,
    Nat.testBit_two_pow_sub_one]
  by_cases hik : k ≤ i
  · have e : k + (i - k) = i := by omega
    have hnl : ¬ i < k := by omega
    by_cases hi : i < 64
    · simp [hik, e, hnl, hi]
    · have : raw.testBit i = false := testBit_false_of_lt_64 raw i h (by omega)
      simp [hik, e, this]
  · have : i < k := by omega
    simp [hik, this]

/-! ### Claims -/

/-- C1: decoding the hypercall MSR value 0x1001 gives enable = 1, reserved = 0 and
guest_physical_address = 1, encoding these fields gives back 0x1001, and for every raw
64-bit value the decoded enable is bit 0 of raw and the decoded guest_physical_address
is raw shifted right by 12. -/
theorem hypercall_contents_decode (raw : Nat) (h : raw < 2 ^ 64) :
    decode hv_x64_msr_hypercall_contents 0x1001 = [1, 0, 0x1] ∧
    encode hv_x64_msr_hypercall_contents [1, 0, 0x1] = 0x1001 ∧
    hv_x64_msr_hypercall_contents.enable raw = raw % 2 ∧
    hv_x64_msr_hypercall_contents.enable raw = (raw.testBit 0).toNat ∧
    hv_x64_msr_hypercall_contents.guest_physical_address raw
      = raw >>> HV_X64_MSR_HYPERCALL_PAGE_ADDRESS_SHIFT := by
  refine ⟨by decide, by decide, ?_, ?_, ?_⟩
  · simp [hv_x64_msr_hypercall_contents.enable, field, decode, decodeFrom, extract,
      hv_x64_msr_hypercall_contents]
  · simp only [hv_x64_msr_hypercall_contents.enable, field, decode, decodeFrom, extract,
      hv_x64_msr_hypercall_contents, List.getD_cons_zero, Nat.shiftRight_zero, pow_one,
      Nat.testBit_zero]
    rcases Nat.mod_two_eq_zero_or_one raw with h0 | h0 <;> simp [h0]
  · simp only [hv_x64_msr_hypercall_contents.guest_physical_address, field, decode,
      decodeFrom, extract, hv_x64_msr_hypercall_contents,
      HV_X64_MSR_HYPERCALL_PAGE_ADDRESS_SHIFT, List.getD_cons_succ, List.getD_cons_zero,
      Nat.zero_add]
    apply Nat.mod_eq_of_lt
    rw [Nat.shiftRight_eq_div_pow]
    omega

/-- C1 at the raw value 0x1001: enable is 1 and the page address field is 1. -/
theorem hypercall_contents_decode_witness :
    (0x1001 : Nat) < 2 ^ 64 ∧
    hv_x64_msr_hypercall_contents.enable 0x1001 = 0x1001 % 2 ∧
    hv_x64_msr_hypercall_contents.guest_physical_address 0x1001
      = 0x1001 >>> HV_X64_MSR_HYPERCALL_PAGE_ADDRESS_SHIFT :=
  ⟨by norm_num, (hypercall_contents_decode 0x1001 (by norm_num)).2.2.1,
    (hypercall_contents_decode 0x1001 (by norm_num)).2.2.2.2⟩

/-- C2: each of the eleven 64-bit bit-field layouts has declared widths summing to exactly
64; fields being allocated from bit 0 upward without overlap, encode (decode raw) = raw
for every raw 64-bit value, decode (encode v) = v for every tuple of field values each
within its declared width, and every encoded value is a 64-bit value. -/
theorem layouts64_roundtrip (L : Layout) (hL : L ∈ layouts64) :
    totalWidth L = 64 ∧
    (∀ raw, raw < 2 ^ 64 → encode L (decode L raw) = raw) ∧
    (∀ vs, Fits L vs → decode L (encode L vs) = vs) ∧
    (∀ vs, encode L vs < 2 ^ 64) := by
  have hw := mem_layouts64_width L hL
  refine ⟨hw, ?_, fun vs hvs => decode_encode_of_fits L vs hvs, fun vs => ?_⟩
  · intro raw hraw
    rw [encode_decode_mod, hw]
    exact Nat.mod_eq_of_lt hraw
  · have h := encode_lt L vs
    rwa [hw] at h

/-- C2 at the SINT register: widths 8+8+1+1+1+45 = 64, and the value 0x300fe (vector 0xfe,
masked, auto-EOI) survives decode then encode. -/
theorem layouts64_roundtrip_witness :
    hv_synic_sint ∈ layouts64 ∧ totalWidth hv_synic_sint = 64 ∧
    encode hv_synic_sint (decode hv_synic_sint 0x300fe) = 0x300fe ∧
    decode hv_synic_sint (encode hv_synic_sint [0xfe, 0, 1, 1, 0, 0]) = [0xfe, 0, 1, 1, 0, 0] :=
  ⟨by simp [layouts64], (layouts64_roundtrip hv_synic_sint (by simp [layouts64])).1,
    (layouts64_roundtrip hv_synic_sint (by simp [layouts64])).2.1 0x300fe (by norm_num),
    (layouts64_roundtrip hv_synic_sint (by simp [layouts64])).2.2.1 [0xfe, 0, 1, 1, 0, 0]
      (by simp [Fits, hv_synic_sint])⟩

/-- C3 (evaluation of the code): the named fields of union hv_vp_assist_page_msr take
1 + 11 + 48 = 60 bits, so decode followed by encode keeps only the low 60 bits of raw.
At raw = 0x1000000000000001 the fields are enabled = 1, reserved_preserved = 0, pfn = 0,
they encode to 1, not to raw, and pfn shifted left by the address shift is 0 while
raw & HV_X64_MSR_VP_ASSIST_PAGE_ADDRESS_MASK is 0x1000000000000000. -/
theorem vp_assist_page_msr_drops_high_bits :
    totalWidth hv_vp_assist_page_msr = 60 ∧
    (∀ raw, encode hv_vp_assist_page_msr (decode hv_vp_assist_page_msr raw) = raw % 2 ^ 60) ∧
    decode hv_vp_assist_page_msr 0x1000000000000001 = [1, 0, 0] ∧
    encode hv_vp_assist_page_msr (decode hv_vp_assist_page_msr 0x1000000000000001) = 1 ∧
    encode hv_vp_assist_page_msr (decode hv_vp_assist_page_msr 0x1000000000000001)
      ≠ 0x1000000000000001 ∧
    hv_vp_assist_page_msr.pfn 0x1000000000000001 <<< HV_X64_MSR_VP_ASSIST_PAGE_ADDRESS_SHIFT
      = 0 ∧
    0x1000000000000001 &&& HV_X64_MSR_VP_ASSIST_PAGE_ADDRESS_MASK = 0x1000000000000000 ∧
    HV_X64_MSR_VP_ASSIST_PAGE_ADDRESS_MASK = 0xfffffffffffff000 := by
  refine ⟨rfl, fun raw => ?_, by decide, by decide, by decide, by decide, by decide, by decide⟩
  rw [encode_decode_mod]
  rfl

/-- C4: HV_MAX_FLUSH_REP_COUNT is 510, the largest n with 2*8 + 8*n <= HV_HYP_PAGE_SIZE
(4096): 510 entries fit and 511 do not, and struct hv_guest_mapping_flush_list
(address_space at 0, flags at 8, gpa_list at 16) occupies exactly HV_HYP_PAGE_SIZE bytes. -/
theorem max_flush_rep_count_exact :
    HV_MAX_FLUSH_REP_COUNT = 510 ∧
    HV_HYP_PAGE_SIZE = 4096 ∧
    uint64_t.size = 8 ∧ T.hv_gpa_page_range.size = 8 ∧
    (∀ n, flush_list_bytes n = 2 * 8 + 8 * n) ∧
    flush_list_bytes 510 ≤ HV_HYP_PAGE_SIZE ∧
    ¬ flush_list_bytes 511 ≤ HV_HYP_PAGE_SIZE ∧
    (∀ n, flush_list_bytes n ≤ HV_HYP_PAGE_SIZE ↔ n ≤ HV_MAX_FLUSH_REP_COUNT) ∧
    offsetsFrom 0 hv_guest_mapping_flush_list.members = [0, 8, 16] ∧
    endFrom 0 hv_guest_mapping_flush_list.members = HV_HYP_PAGE_SIZE ∧
    hv_guest_mapping_flush_list.size = HV_HYP_PAGE_SIZE := by
  have hc : HV_MAX_FLUSH_REP_COUNT = 510 := by decide
  have hp : HV_HYP_PAGE_SIZE = 4096 := by decide
  have hb : ∀ n, flush_list_bytes n = 2 * 8 + 8 * n := fun n => rfl
  refine ⟨hc, hp, rfl, by decide, hb, by decide, by decide, fun n => ?_, by decide, by decide,
    by decide⟩
  rw [hb, hc, hp]
  omega

/-- C5: HV_MAX_FLUSH_PAGES (2048) is one plus the largest value of the 11-bit
additional_pages field of union hv_gpa_page_range; for every raw range entry the decoded
additional_pages lies in 0..2047, the number of pages additional_pages + 1 lies in
1..HV_MAX_FLUSH_PAGES, and both bounds are attained (by the entries 0 and 2047). -/
theorem max_flush_pages_bounds :
    hv_gpa_page_range.getD 0 0 = 11 ∧
    HV_MAX_FLUSH_PAGES = (2 ^ hv_gpa_page_range.getD 0 0 - 1) + 1 ∧
    HV_MAX_FLUSH_PAGES = 2048 ∧
    (∀ raw, hv_gpa_page_range.additional_pages raw ≤ 2047 ∧
      1 ≤ hv_gpa_page_range.pages raw ∧
      hv_gpa_page_range.pages raw ≤ HV_MAX_FLUSH_PAGES) ∧
    (0 < 2 ^ 64 ∧ hv_gpa_page_range.pages 0 = 1) ∧
    (2047 < 2 ^ 64 ∧ hv_gpa_page_range.additional_pages 2047 = 2047 ∧
      hv_gpa_page_range.pages 2047 = HV_MAX_FLUSH_PAGES) := by
  refine ⟨rfl, by decide, rfl, fun raw => ?_, ⟨by norm_num, by decide⟩,
    ⟨by norm_num, by decide, by decide⟩⟩
  have h : hv_gpa_page_range.additional_pages raw = raw % 2 ^ 11 := by
    simp [hv_gpa_page_range.additional_pages, field, decode, decodeFrom, extract,
      hv_gpa_page_range]
  have h2 : raw % 2 ^ 11 < 2 ^ 11 := Nat.mod_lt _ (by norm_num)
  simp only [hv_gpa_page_range.pages, HV_MAX_FLUSH_PAGES, h]
  omega

/-- C6 (the claim fails): struct hv_message_header is 16 bytes, not 8, and an 8-byte header
followed by the 240-byte payload would not add up to HV_MESSAGE_SIZE. -/
theorem message_header_not_8_bytes :
    hv_message_header.size ≠ 8 ∧
    8 + HV_MESSAGE_PAYLOAD_BYTE_COUNT ≠ HV_MESSAGE_SIZE ∧
    ¬ (hv_message_header.size = 8 ∧
       hv_message_header.size + HV_MESSAGE_PAYLOAD_BYTE_COUNT = HV_MESSAGE_SIZE) := by
  decide

/-- C6 (amended): a SynIC message slot is a 256-byte record made of a 16-byte header
(message type at 0, payload size at 4, flags at 5, two reserved bytes at 6, the 8-byte
sender-or-port union at 8) followed by a 240-byte payload at offset 16:
sizeof(struct hv_message_header) = 16 and
header size + HV_MESSAGE_PAYLOAD_BYTE_COUNT = HV_MESSAGE_SIZE. -/
theorem message_header_16_bytes :
    hv_message_header.members.map CObj.size = [4, 1, 1, 2, 8] ∧
    offsetsFrom 0 hv_message_header.members = [0, 4, 5, 6, 8] ∧
    hv_message_header.size = 16 ∧
    offsetsFrom 0 hv_message.members = [0, 16] ∧
    hv_message.members.map CObj.size = [16, HV_MESSAGE_PAYLOAD_BYTE_COUNT] ∧
    hv_message_header.size + HV_MESSAGE_PAYLOAD_BYTE_COUNT = HV_MESSAGE_SIZE ∧
    HV_MESSAGE_SIZE = 256 := by
  decide

/-- C7: under natural alignment sizeof(struct hv_message) is HV_MESSAGE_SIZE (256),
HV_MESSAGE_PAYLOAD_BYTE_COUNT (240) is 8 * HV_MESSAGE_PAYLOAD_QWORD_COUNT (30), slot i of
struct hv_message_page starts at byte 256*i for every i < HV_SYNIC_SINT_COUNT and ends
within the page, and the page is HV_SYNIC_SINT_COUNT * HV_MESSAGE_SIZE = 4096 =
HV_HYP_PAGE_SIZE bytes. -/
theorem message_page_layout (i : Nat) (hi : i < HV_SYNIC_SINT_COUNT) :
    hv_message.size = HV_MESSAGE_SIZE ∧ HV_MESSAGE_SIZE = 256 ∧
    HV_MESSAGE_PAYLOAD_BYTE_COUNT = 240 ∧ HV_MESSAGE_PAYLOAD_QWORD_COUNT = 30 ∧
    HV_MESSAGE_PAYLOAD_BYTE_COUNT = 8 * HV_MESSAGE_PAYLOAD_QWORD_COUNT ∧
    HV_SYNIC_SINT_COUNT = 16 ∧
    hv_message_page.sint_message_offset i = 256 * i ∧
    hv_message_page.sint_message_offset i + hv_message.size ≤ hv_message_page.size ∧
    hv_message_page.size = HV_SYNIC_SINT_COUNT * HV_MESSAGE_SIZE ∧
    hv_message_page.size = 4096 ∧
    hv_message_page.size = HV_HYP_PAGE_SIZE := by
  have hm : hv_message.size = 256 := by decide
  have ho : hv_message_page.sint_message_offset i = 256 * i := by
    simp only [hv_message_page.sint_message_offset, elem_offset, hm]
    have : offsetof hv_message_page.members 0 = 0 := by decide
    omega
  have hp : hv_message_page.size = 4096 := by decide
  have h16 : HV_SYNIC_SINT_COUNT = 16 := rfl
  refine ⟨by decide, rfl, rfl, rfl, by decide, rfl, ho, ?_, by decide, hp, by decide⟩
  rw [ho, hm, hp]
  omega

/-- C7 at the last slot: sint_message[15] starts at byte 3840 and ends at byte 4096. -/
theorem message_page_layout_witness :
    15 < HV_SYNIC_SINT_COUNT ∧ hv_message_page.sint_message_offset 15 = 256 * 15 ∧
    hv_message_page.sint_message_offset 15 + hv_message.size ≤ hv_message_page.size :=
  ⟨by decide, (message_page_layout 15 (by decide)).2.2.2.2.2.2.1,
    (message_page_layout 15 (by decide)).2.2.2.2.2.2.2.1⟩

/-- C8: struct ms_hyperv_tsc_page is exactly 4096 bytes (HV_HYP_PAGE_SIZE): a 4+4+8+8 =
24-byte header with tsc_sequence at offset 0, reserved1 at 4, tsc_scale at 8 and tsc_offset
at 16, followed at offset 24 by 509 reserved 64-bit words that fill the remainder; and
HV_REFERENCE_TSC_PAGE has its sequence, scale and offset members at the same offsets 0, 8
and 16 with the same sizes. -/
theorem tsc_page_layout :
    ms_hyperv_tsc_page.size = HV_HYP_PAGE_SIZE ∧ ms_hyperv_tsc_page.size = 4096 ∧
    ms_hyperv_tsc_page.members.map CObj.size = [4, 4, 8, 8, 509 * 8] ∧
    offsetsFrom 0 ms_hyperv_tsc_page.members = [0, 4, 8, 16, 24] ∧
    4 + 4 + 8 + 8 = 24 ∧ 24 + 509 * 8 = HV_HYP_PAGE_SIZE ∧
    endFrom 0 ms_hyperv_tsc_page.members = HV_HYP_PAGE_SIZE ∧
    offsetsFrom 0 HV_REFERENCE_TSC_PAGE.members = [0, 4, 8, 16] ∧
    HV_REFERENCE_TSC_PAGE.members.map CObj.size = [4, 4, 8, 8] ∧
    HV_REFERENCE_TSC_PAGE.size = 24 ∧
    (∀ k, k < 4 →
      offsetof HV_REFERENCE_TSC_PAGE.members k = offsetof ms_hyperv_tsc_page.members k ∧
      HV_REFERENCE_TSC_PAGE.members.get? k = ms_hyperv_tsc_page.members.get? k) := by
  decide

/-- C9: HV_EVENT_FLAGS_COUNT = 256*8 = 2048; for sizeof(unsigned long) = 8 (32 words of 64
bits) as well as 4 (64 words of 32 bits) the bitmap of union hv_synic_event_flags has
exactly HV_EVENT_FLAGS_COUNT bits in 256 bytes, every flag index below
HV_EVENT_FLAGS_COUNT maps to a word index below HV_EVENT_FLAGS_LONG_COUNT, and
HV_SYNIC_SINT_COUNT banks of 256 bytes fill exactly one HV_HYP_PAGE_SIZE page. -/
theorem event_flags_bank (sz : Nat) (hsz : sz = 8 ∨ sz = 4) (i : Nat)
    (hi : i < HV_EVENT_FLAGS_COUNT) :
    HV_EVENT_FLAGS_COUNT = 2048 ∧
    HV_EVENT_FLAGS_LONG_COUNT 8 = 32 ∧ HV_EVENT_FLAGS_LONG_COUNT 4 = 64 ∧
    hv_synic_event_flags.bits sz = HV_EVENT_FLAGS_COUNT ∧
    (hv_synic_event_flags sz).size = 256 ∧
    flag_word sz i < HV_EVENT_FLAGS_LONG_COUNT sz ∧
    HV_SYNIC_SINT_COUNT * (hv_synic_event_flags sz).size = HV_HYP_PAGE_SIZE := by
  have hc : HV_EVENT_FLAGS_COUNT = 2048 := rfl
  rw [hc] at hi
  rcases hsz with h | h <;> subst h
  · refine ⟨rfl, rfl, rfl, by decide, by decide, ?_, by decide⟩
    have h1 : flag_word 8 i = i / 64 := rfl
    have h2 : HV_EVENT_FLAGS_LONG_COUNT 8 = 32 := rfl
    rw [h1, h2]
    omega
  · refine ⟨rfl, rfl, rfl, by decide, by decide, ?_, by decide⟩
    have h1 : flag_word 4 i = i / 32 := rfl
    have h2 : HV_EVENT_FLAGS_LONG_COUNT 4 = 64 := rfl
    rw [h1, h2]
    omega

/-- C9 at an 8-byte unsigned long and the last flag: flag 2047 lives in word 31 of 32. -/
theorem event_flags_bank_witness :
    (8 = 8 ∨ 8 = 4) ∧ 2047 < HV_EVENT_FLAGS_COUNT ∧
    hv_synic_event_flags.bits 8 = HV_EVENT_FLAGS_COUNT ∧
    flag_word 8 2047 < HV_EVENT_FLAGS_LONG_COUNT 8 :=
  ⟨Or.inl rfl, by decide, (event_flags_bank 8 (Or.inl rfl) 2047 (by decide)).2.2.2.1,
    (event_flags_bank 8 (Or.inl rfl) 2047 (by decide)).2.2.2.2.2.1⟩

/-- C10: the clean-field bitmap has exactly 16 group flags; they are the pairwise distinct
single bits at positions 0..15, their bitwise OR is HV_VMX_ENLIGHTENED_CLEAN_FIELD_ALL
(0xFFFF), HV_VMX_ENLIGHTENED_CLEAN_FIELD_NONE (0) shares no bit with any of them, and
clearing the flag of group i in any hv_clean_fields value gives a 32-bit value in which
bit i is clear and every other bit j < 32, so each of the other 15 group bits, is
unchanged. -/
theorem clean_field_flags_exact (v i j : Nat) (hi : i < 16) (hj : j < 32) (hne : j ≠ i) :
    clean_field_flags.length = 16 ∧
    clean_field_flags = (List.range 16).map (fun k => 2 ^ k) ∧
    clean_field_flags.Nodup ∧
    clean_field_flags.foldl (fun a f => a ||| f) 0 = HV_VMX_ENLIGHTENED_CLEAN_FIELD_ALL ∧
    HV_VMX_ENLIGHTENED_CLEAN_FIELD_ALL = 0xFFFF ∧
    (∀ f ∈ clean_field_flags, HV_VMX_ENLIGHTENED_CLEAN_FIELD_NONE &&& f = 0) ∧
    clean_field_flags.getD i 0 = 2 ^ i ∧
    clear_clean_field v (clean_field_flags.getD i 0) < 2 ^ 32 ∧
    (clear_clean_field v (clean_field_flags.getD i 0)).testBit i = false ∧
    (clear_clean_field v (clean_field_flags.getD i 0)).testBit j = v.testBit j := by
  have hget : clean_field_flags.getD i 0 = 2 ^ i := by
    rw [clean_field_flags_eq]
    interval_cases i <;> rfl
  refine ⟨rfl, clean_field_flags_eq, by decide, by decide, rfl, ?_, hget, ?_, ?_, ?_⟩
  · intro f _
    simp [HV_VMX_ENLIGHTENED_CLEAN_FIELD_NONE]
  · exact Nat.mod_lt _ (Nat.two_pow_pos 32)
  · rw [hget, testBit_clear_clean_field v i i (by omega)]
    simp
  · rw [hget, testBit_clear_clean_field v i j hj]
    have : ¬ i = j := fun h => hne h.symm
    simp [this]

/-- C10 at hv_clean_fields = 0xFFFF and the group MSR_BITMAP (bit 1): clearing it gives
0xFFFD, bit 1 is clear and bit 0 is unchanged. -/
theorem clean_field_flags_exact_witness :
    1 < 16 ∧ 0 < 32 ∧ 0 ≠ 1 ∧ clear_clean_field 0xFFFF (clean_field_flags.getD 1 0) = 0xFFFD ∧
    (clear_clean_field 0xFFFF (clean_field_flags.getD 1 0)).testBit 1 = false ∧
    (clear_clean_field 0xFFFF (clean_field_flags.getD 1 0)).testBit 0
      = (0xFFFF : Nat).testBit 0 :=
  ⟨by norm_num, by norm_num, by norm_num, by decide,
    (clean_field_flags_exact 0xFFFF 1 0 (by norm_num) (by norm_num)
      (by norm_num)).2.2.2.2.2.2.2.2.1,
    (clean_field_flags_exact 0xFFFF 1 0 (by norm_num) (by norm_num)
      (by norm_num)).2.2.2.2.2.2.2.2.2⟩

/-- C11: the hypercall control-word masks are the bit ranges their comments state:
HV_HYPERCALL_RESULT_MASK is exactly bits 15..0, HV_HYPERCALL_FAST_BIT is exactly bit 16,
the variable-header field starts at bit 17, HV_HYPERCALL_REP_COMP_MASK is
GENMASK_ULL(43, 32) and HV_HYPERCALL_REP_START_MASK is GENMASK_ULL(59, 48); the four masks
are pairwise disjoint, and for every control word raw, replacing the call code, the fast
flag, the rep-comp field or the rep-start field by any value v leaves the other three
fields as extracted from raw. -/
theorem control_word_masks (raw v : Nat) :
    HV_HYPERCALL_RESULT_MASK = GENMASK_ULL 15 0 ∧
    (∀ i, HV_HYPERCALL_RESULT_MASK.testBit i = decide (i ≤ 15)) ∧
    (∀ i, HV_HYPERCALL_FAST_BIT.testBit i = decide (i = 16)) ∧
    HV_HYPERCALL_VARHEAD_OFFSET = 17 ∧
    HV_HYPERCALL_REP_COMP_MASK = GENMASK_ULL 43 32 ∧
    (∀ i, HV_HYPERCALL_REP_COMP_MASK.testBit i = decide (32 ≤ i ∧ i ≤ 43)) ∧
    HV_HYPERCALL_REP_START_MASK = GENMASK_ULL 59 48 ∧
    (∀ i, HV_HYPERCALL_REP_START_MASK.testBit i = decide (48 ≤ i ∧ i ≤ 59)) ∧
    (HV_HYPERCALL_RESULT_MASK &&& HV_HYPERCALL_FAST_BIT = 0 ∧
     HV_HYPERCALL_RESULT_MASK &&& HV_HYPERCALL_REP_COMP_MASK = 0 ∧
     HV_HYPERCALL_RESULT_MASK &&& HV_HYPERCALL_REP_START_MASK = 0 ∧
     HV_HYPERCALL_FAST_BIT &&& HV_HYPERCALL_REP_COMP_MASK = 0 ∧
     HV_HYPERCALL_FAST_BIT &&& HV_HYPERCALL_REP_START_MASK = 0 ∧
     HV_HYPERCALL_REP_COMP_MASK &&& HV_HYPERCALL_REP_START_MASK = 0) ∧
    (fast_flag (set_call_code raw v) = fast_flag raw ∧
     rep_comp (set_call_code raw v) = rep_comp raw ∧
     rep_start (set_call_code raw v) = rep_start raw) ∧
    (call_code (set_fast_flag raw v) = call_code raw ∧
     rep_comp (set_fast_flag raw v) = rep_comp raw ∧
     rep_start (set_fast_flag raw v) = rep_start raw) ∧
    (call_code (set_rep_comp raw v) = call_code raw ∧
     fast_flag (set_rep_comp raw v) = fast_flag raw ∧
     rep_start (set_rep_comp raw v) = rep_start raw) ∧
    (call_code (set_rep_start raw v) = call_code raw ∧
     fast_flag (set_rep_start raw v) = fast_flag raw ∧
     rep_comp (set_rep_start raw v) = rep_comp raw) := by
  refine ⟨by decide, fun i => ?_, fun i => ?_, rfl, by decide, fun i => ?_, by decide,
    fun i => ?_, by decide, ?_, ?_, ?_, ?_⟩
  · rw [result_mask_eq, testBit_field_mask]
    congr 1
    apply propext
    omega
  · rw [fast_bit_eq, testBit_field_mask]
    congr 1
    apply propext
    omega
  · rw [rep_comp_mask_eq, testBit_field_mask, HV_HYPERCALL_REP_COMP_OFFSET]
    congr 1
    apply propext
    omega
  · rw [rep_start_mask_eq, testBit_field_mask, HV_HYPERCALL_REP_START_OFFSET]
    congr 1
    apply propext
    omega
  · simp only [fast_flag, rep_comp, rep_start, set_call_code]
    rw [set_field_and_other _ _ _ _ _ (by decide) (by decide),
      set_field_and_other _ _ _ _ _ (by decide) (by decide),
      set_field_and_other _ _ _ _ _ (by decide) (by decide)]
    exact ⟨rfl, rfl, rfl⟩
  · simp only [call_code, rep_comp, rep_start, set_fast_flag]
    rw [set_field_and_other _ _ _ _ _ (by decide) (by decide),
      set_field_and_other _ _ _ _ _ (by decide) (by decide),
      set_field_and_other _ _ _ _ _ (by decide) (by decide)]
    exact ⟨rfl, rfl, rfl⟩
  · simp only [call_code, fast_flag, rep_start, set_rep_comp]
    rw [set_field_and_other _ _ _ _ _ (by decide) (by decide),
      set_field_and_other _ _ _ _ _ (by decide) (by decide),
      set_field_and_other _ _ _ _ _ (by decide) (by decide)]
    exact ⟨rfl, rfl, rfl⟩
  · simp only [call_code, fast_flag, rep_comp, set_rep_start]
    rw [set_field_and_other _ _ _ _ _ (by decide) (by decide),
      set_field_and_other _ _ _ _ _ (by decide) (by decide),
      set_field_and_other _ _ _ _ _ (by decide) (by decide)]
    exact ⟨rfl, rfl, rfl⟩

/-- C12: the header defines nine pairwise distinct hypercall status codes, 0, 2, 3, 4, 5,
11, 17, 18 and 19; each defined code c satisfies c & HV_HYPERCALL_RESULT_MASK == c, so
the 64-bit status word carrying c has all bits above bit 15 zero and masking it with
HV_HYPERCALL_RESULT_MASK recovers c. -/
theorem status_codes_fit_result_mask (c : Nat) (hc : c ∈ hv_status_codes) :
    hv_status_codes = [0, 2, 3, 4, 5, 11, 17, 18, 19] ∧
    hv_status_codes.length = 9 ∧
    hv_status_codes.Nodup ∧
    c &&& HV_HYPERCALL_RESULT_MASK = c ∧
    status_word c = c ∧
    status_word c >>> 16 = 0 ∧
    (∀ i, 15 < i → (status_word c).testBit i = false) ∧
    status_word c &&& HV_HYPERCALL_RESULT_MASK = c := by
  have hall : ∀ d ∈ hv_status_codes,
      d &&& HV_HYPERCALL_RESULT_MASK = d ∧ status_word d = d ∧ d < 2 ^ 16 := by decide
  obtain ⟨h1, h2, h3⟩ := hall c hc
  refine ⟨rfl, rfl, by decide, h1, h2, ?_, fun i hi => ?_, ?_⟩
  · rw [h2, Nat.shiftRight_eq_div_pow]
    exact Nat.div_eq_of_lt h3
  · rw [h2]
    exact Nat.testBit_lt_two_pow
      (Nat.lt_of_lt_of_le h3 (Nat.pow_le_pow_right (by norm_num) (by omega)))
  · rw [h2, h1]

/-- C12 at HV_STATUS_INSUFFICIENT_BUFFERS (19): the status word is 19 and masking it
with HV_HYPERCALL_RESULT_MASK gives 19. -/
theorem status_codes_fit_result_mask_witness :
    HV_STATUS_INSUFFICIENT_BUFFERS ∈ hv_status_codes ∧
    status_word HV_STATUS_INSUFFICIENT_BUFFERS >>> 16 = 0 ∧
    status_word HV_STATUS_INSUFFICIENT_BUFFERS &&& HV_HYPERCALL_RESULT_MASK
      = HV_STATUS_INSUFFICIENT_BUFFERS :=
  ⟨by decide,
    (status_codes_fit_result_mask HV_STATUS_INSUFFICIENT_BUFFERS (by decide)).2.2.2.2.2.1,
    (status_codes_fit_result_mask HV_STATUS_INSUFFICIENT_BUFFERS (by decide)).2.2.2.2.2.2.2⟩

/-- C13: the SINT MSRs form one contiguous block, one MSR per synthetic interrupt source:
HV_X64_MSR_SINTn = HV_X64_MSR_SINT0 + n for every n in 0..15,
HV_X64_MSR_SINT15 - HV_X64_MSR_SINT0 + 1 = HV_SYNIC_SINT_COUNT (16), every MSR index m
with HV_X64_MSR_SINT0 <= m <= HV_X64_MSR_SINT15 is a SINT MSR whose index
m - HV_X64_MSR_SINT0 is below HV_SYNIC_SINT_COUNT, and no other MSR address the header
defines falls inside that range. -/
theorem sint_msrs_contiguous (m : Nat) (hlo : HV_X64_MSR_SINT0 ≤ m)
    (hhi : m ≤ HV_X64_MSR_SINT15) :
    sint_msrs.length = HV_SYNIC_SINT_COUNT ∧
    (∀ n, n < 16 → sint_msrs.getD n 0 = HV_X64_MSR_SINT0 + n) ∧
    HV_X64_MSR_SINT15 - HV_X64_MSR_SINT0 + 1 = HV_SYNIC_SINT_COUNT ∧
    HV_SYNIC_SINT_COUNT = 16 ∧
    sint_index m < HV_SYNIC_SINT_COUNT ∧
    sint_msrs.getD (sint_index m) 0 = m ∧
    (∀ a ∈ other_msrs, ¬ (HV_X64_MSR_SINT0 ≤ a ∧ a ≤ HV_X64_MSR_SINT15)) := by
  have hn : ∀ n, n < 16 → sint_msrs.getD n 0 = HV_X64_MSR_SINT0 + n := by decide
  have h0 : HV_X64_MSR_SINT0 = 0x40000090 := rfl
  have h15 : HV_X64_MSR_SINT15 = 0x4000009F := rfl
  have hi : sint_index m < 16 := by
    simp only [sint_index]
    omega
  refine ⟨rfl, hn, rfl, rfl, hi, ?_, by decide⟩
  rw [hn _ hi]
  simp only [sint_index]
  omega

/-- C13 at HV_X64_MSR_SINT10 (0x4000009A): it lies in the block and selects SINT 10. -/
theorem sint_msrs_contiguous_witness :
    HV_X64_MSR_SINT0 ≤ HV_X64_MSR_SINT10 ∧ HV_X64_MSR_SINT10 ≤ HV_X64_MSR_SINT15 ∧
    sint_index HV_X64_MSR_SINT10 < HV_SYNIC_SINT_COUNT ∧
    sint_msrs.getD (sint_index HV_X64_MSR_SINT10) 0 = HV_X64_MSR_SINT10 :=
  ⟨by decide, by decide,
    (sint_msrs_contiguous HV_X64_MSR_SINT10 (by decide) (by decide)).2.2.2.2.1,
    (sint_msrs_contiguous HV_X64_MSR_SINT10 (by decide) (by decide)).2.2.2.2.2.1⟩

/-- C14: a guest OS ID whose vendor field (bits 63..48 of union hv_guest_os_id) is
HV_XEN_VENDOR_ID (0x8300), the other fields being arbitrary, has bit 63 (open source) set,
bits 62:56 (OS type) equal to 0x3 (Xen) and bits 55:48 equal to 0; with HV_LINUX_VENDOR_ID
(0x8100) bit 63 is set and bits 62:56 equal 0x1 (Linux); and the remaining fields sit at
build_number 15:0, service_pack 23:16, minor 31:24, major 39:32, os 47:40. -/
theorem guest_os_id_vendor_bits (raw : Nat) :
    (hv_guest_os_id.vendor raw = HV_XEN_VENDOR_ID →
      raw.testBit 63 = true ∧ bits raw 62 56 = 0x3 ∧ bits raw 55 48 = 0) ∧
    (hv_guest_os_id.vendor raw = HV_LINUX_VENDOR_ID →
      raw.testBit 63 = true ∧ bits raw 62 56 = 0x1) ∧
    hv_guest_os_id.vendor raw = bits raw 63 48 ∧
    hv_guest_os_id.build_number raw = bits raw 15 0 ∧
    hv_guest_os_id.service_pack raw = bits raw 23 16 ∧
    hv_guest_os_id.minor raw = bits raw 31 24 ∧
    hv_guest_os_id.major raw = bits raw 39 32 ∧
    hv_guest_os_id.os raw = bits raw 47 40 := by
  have hv : hv_guest_os_id.vendor raw = raw / 2 ^ 48 % 2 ^ 16 := by
    show extract raw 48 16 = _
    rw [extract, Nat.shiftRight_eq_div_pow]
  have h63 : raw.testBit 63 = decide (raw / 2 ^ 48 / 2 ^ 15 % 2 = 1) := by
    rw [Nat.testBit_to_div_mod, Nat.div_div_eq_div_mul, ← Nat.pow_add]
  have h62 : bits raw 62 56 = raw / 2 ^ 48 / 2 ^ 8 % 2 ^ 7 := by
    show extract raw 56 7 = _
    rw [extract, Nat.shiftRight_eq_div_pow, Nat.div_div_eq_div_mul, ← Nat.pow_add]
  have h55 : bits raw 55 48 = raw / 2 ^ 48 % 2 ^ 8 := by
    show extract raw 48 8 = _
    rw [extract, Nat.shiftRight_eq_div_pow]
  refine ⟨fun h => ?_, fun h => ?_, rfl, rfl, rfl, rfl, rfl, rfl⟩
  · rw [hv, HV_XEN_VENDOR_ID] at h
    rw [h63, h62, h55]
    refine ⟨?_, ?_, ?_⟩
    · simp only [decide_eq_true_eq]
      omega
    · omega
    · omega
  · rw [hv, HV_LINUX_VENDOR_ID] at h
    rw [h63, h62]
    refine ⟨?_, ?_⟩
    · simp only [decide_eq_true_eq]
      omega
    · omega

/-- C14 at the guest IDs 0x8300000000000000 and 0x8100040506070809: the vendor fields are
HV_XEN_VENDOR_ID and HV_LINUX_VENDOR_ID, bit 63 is set and the OS types are 3 and 1. -/
theorem guest_os_id_vendor_bits_witness :
    hv_guest_os_id.vendor 0x8300000000000000 = HV_XEN_VENDOR_ID ∧
    hv_guest_os_id.vendor 0x8100040506070809 = HV_LINUX_VENDOR_ID ∧
    ((0x8300000000000000 : Nat).testBit 63 = true ∧ bits 0x8300000000000000 62 56 = 0x3 ∧
      bits 0x8300000000000000 55 48 = 0) ∧
    ((0x8100040506070809 : Nat).testBit 63 = true ∧ bits 0x8100040506070809 62 56 = 0x1) :=
  ⟨by decide, by decide, (guest_os_id_vendor_bits 0x8300000000000000).1 (by decide),
    (guest_os_id_vendor_bits 0x8100040506070809).2.1 (by decide)⟩

/-- C15: the synthetic-timer MSRs form one contiguous block of four CONFIG/COUNT pairs:
for every n < HV_SYNIC_STIMER_COUNT (4), HV_X64_MSR_STIMERn_CONFIG =
HV_X64_MSR_STIMER0_CONFIG + 2n and HV_X64_MSR_STIMERn_COUNT = HV_X64_MSR_STIMERn_CONFIG + 1;
so for every MSR index m in [HV_X64_MSR_STIMER0_CONFIG, HV_X64_MSR_STIMER3_COUNT] the
timer index (m - HV_X64_MSR_STIMER0_CONFIG) / 2 is below HV_SYNIC_STIMER_COUNT, and m is
the CONFIG MSR of that timer when m - HV_X64_MSR_STIMER0_CONFIG is even and its COUNT MSR
when it is odd. -/
theorem stimer_msrs_contiguous (m : Nat) (hlo : HV_X64_MSR_STIMER0_CONFIG ≤ m)
    (hhi : m ≤ HV_X64_MSR_STIMER3_COUNT) :
    HV_SYNIC_STIMER_COUNT = 4 ∧
    stimer_config_msrs.length = HV_SYNIC_STIMER_COUNT ∧
    stimer_count_msrs.length = HV_SYNIC_STIMER_COUNT ∧
    (∀ n, n < HV_SYNIC_STIMER_COUNT →
      stimer_config_msrs.getD n 0 = HV_X64_MSR_STIMER0_CONFIG + 2 * n ∧
      stimer_count_msrs.getD n 0 = stimer_config_msrs.getD n 0 + 1) ∧
    stimer_index m < HV_SYNIC_STIMER_COUNT ∧
    ((m - HV_X64_MSR_STIMER0_CONFIG) % 2 = 0 →
      m = stimer_config_msrs.getD (stimer_index m) 0 ∧ m ∉ stimer_count_msrs) ∧
    ((m - HV_X64_MSR_STIMER0_CONFIG) % 2 = 1 →
      m = stimer_count_msrs.getD (stimer_index m) 0 ∧ m ∉ stimer_config_msrs) := by
  have hn : ∀ n, n < HV_SYNIC_STIMER_COUNT →
      stimer_config_msrs.getD n 0 = HV_X64_MSR_STIMER0_CONFIG + 2 * n ∧
      stimer_count_msrs.getD n 0 = stimer_config_msrs.getD n 0 + 1 := by decide
  have h0 : HV_X64_MSR_STIMER0_CONFIG = 0x400000B0 := rfl
  have h7 : HV_X64_MSR_STIMER3_COUNT = 0x400000B7 := rfl
  have h4 : HV_SYNIC_STIMER_COUNT = 4 := rfl
  have hi : stimer_index m < HV_SYNIC_STIMER_COUNT := by
    simp only [stimer_index]
    omega
  refine ⟨rfl, rfl, rfl, hn, hi, ?_, ?_⟩
  · intro hpar
    obtain ⟨hc, _⟩ := hn _ hi
    refine ⟨?_, ?_⟩
    · rw [hc]
      simp only [stimer_index]
      omega
    · simp only [stimer_count_msrs, HV_X64_MSR_STIMER0_COUNT, HV_X64_MSR_STIMER1_COUNT,
        HV_X64_MSR_STIMER2_COUNT, HV_X64_MSR_STIMER3_COUNT, List.mem_cons,
        List.mem_singleton, List.not_mem_nil, or_false, not_or]
      omega
  · intro hpar
    obtain ⟨hc, hcnt⟩ := hn _ hi
    refine ⟨?_, ?_⟩
    · rw [hcnt, hc]
      simp only [stimer_index]
      omega
    · simp only [stimer_config_msrs, HV_X64_MSR_STIMER0_CONFIG, HV_X64_MSR_STIMER1_CONFIG,
        HV_X64_MSR_STIMER2_CONFIG, HV_X64_MSR_STIMER3_CONFIG, List.mem_cons,
        List.mem_singleton, List.not_mem_nil, or_false, not_or]
      omega

/-- C15 at HV_X64_MSR_STIMER2_COUNT (0x400000B5): timer index 2, odd offset, COUNT MSR. -/
theorem stimer_msrs_contiguous_witness :
    HV_X64_MSR_STIMER0_CONFIG ≤ HV_X64_MSR_STIMER2_COUNT ∧
    HV_X64_MSR_STIMER2_COUNT ≤ HV_X64_MSR_STIMER3_COUNT ∧
    stimer_index HV_X64_MSR_STIMER2_COUNT < HV_SYNIC_STIMER_COUNT ∧
    HV_X64_MSR_STIMER2_COUNT
      = stimer_count_msrs.getD (stimer_index HV_X64_MSR_STIMER2_COUNT) 0 :=
  ⟨by decide, by decide,
    (stimer_msrs_contiguous HV_X64_MSR_STIMER2_COUNT (by decide) (by decide)).2.2.2.2.1,
    ((stimer_msrs_contiguous HV_X64_MSR_STIMER2_COUNT (by decide) (by decide)).2.2.2.2.2.2
      (by decide)).1⟩

/-- C16: every call code the header defines (HVCALL_FLUSH_VIRTUAL_ADDRESS_SPACE to
HVCALL_EXT_CALL_QUERY_CAPABILITIES, 0x8001 included) fits the 16-bit call-code field:
code & HV_HYPERCALL_RESULT_MASK == code and code & HV_HYPERCALL_FAST_BIT == 0; the twelve
codes are pairwise distinct; so the low 16 bits of a control word built from a defined
code, with any fast flag and rep fields, are that code, and two control words built from
defined codes that agree on their low 16 bits were built from the same code. -/
theorem hvcall_codes_fit_call_code (c : Nat) (hc : c ∈ hvcall_codes) (fast : Bool)
    (comp start : Nat) :
    hvcall_codes
      = [0x0002, 0x0003, 0x0008, 0x000b, 0x0013, 0x0014, 0x0015, 0x005c, 0x005d, 0x00af,
         0x00b0, 0x8001] ∧
    hvcall_codes.length = 12 ∧
    hvcall_codes.Nodup ∧
    c &&& HV_HYPERCALL_RESULT_MASK = c ∧
    c &&& HV_HYPERCALL_FAST_BIT = 0 ∧
    call_code (make_control c fast comp start) = c ∧
    (∀ d ∈ hvcall_codes, ∀ (fast2 : Bool) (comp2 start2 : Nat),
      call_code (make_control d fast2 comp2 start2) = call_code (make_control c fast comp start)
        → d = c) := by
  have hall : ∀ d ∈ hvcall_codes,
      d &&& HV_HYPERCALL_RESULT_MASK = d ∧ d &&& HV_HYPERCALL_FAST_BIT = 0 ∧ d < 2 ^ 16 := by
    decide
  obtain ⟨h1, h2, h3⟩ := hall c hc
  refine ⟨rfl, rfl, by decide, h1, h2, call_code_make_control c h3 fast comp start, ?_⟩
  intro d hd fast2 comp2 start2 heq
  rwa [call_code_make_control d (hall d hd).2.2, call_code_make_control c h3] at heq

/-- C16 at HVCALL_EXT_CALL_QUERY_CAPABILITIES (0x8001), fast, rep-comp 5, rep-start 7. -/
theorem hvcall_codes_fit_call_code_witness :
    HVCALL_EXT_CALL_QUERY_CAPABILITIES ∈ hvcall_codes ∧
    HVCALL_EXT_CALL_QUERY_CAPABILITIES &&& HV_HYPERCALL_RESULT_MASK
      = HVCALL_EXT_CALL_QUERY_CAPABILITIES ∧
    call_code (make_control HVCALL_EXT_CALL_QUERY_CAPABILITIES true 5 7)
      = HVCALL_EXT_CALL_QUERY_CAPABILITIES :=
  ⟨by decide,
    (hvcall_codes_fit_call_code HVCALL_EXT_CALL_QUERY_CAPABILITIES (by decide) true 5
      7).2.2.2.1,
    (hvcall_codes_fit_call_code HVCALL_EXT_CALL_QUERY_CAPABILITIES (by decide) true 5
      7).2.2.2.2.2.1⟩

/-- C17: decoding with the mask macros and decoding with the union bit-fields agree for
every raw 64-bit value: for hv_synic_sint, vector == raw & HV_SYNIC_SINT_VECTOR_MASK,
masked == 1 iff raw & HV_SYNIC_SINT_MASKED != 0 and auto_eoi == 1 iff
raw & HV_SYNIC_SINT_AUTO_EOI != 0; for hv_synic_scontrol, hv_synic_simp and hv_synic_siefp
the enable field == raw & HV_SYNIC_CONTROL_ENABLE / HV_SYNIC_SIMP_ENABLE /
HV_SYNIC_SIEFP_ENABLE; and for hv_x64_msr_hypercall_contents, enable ==
raw & HV_X64_MSR_HYPERCALL_ENABLE and guest_physical_address <<
HV_X64_MSR_HYPERCALL_PAGE_ADDRESS_SHIFT == raw & HV_X64_MSR_HYPERCALL_PAGE_ADDRESS_MASK ==
raw & HV_HYP_PAGE_MASK. -/
theorem masks_agree_with_bitfields (raw : Nat) (h : raw < 2 ^ 64) :
    hv_synic_sint.vector raw = raw &&& HV_SYNIC_SINT_VECTOR_MASK ∧
    (hv_synic_sint.masked raw = 1 ↔ raw &&& HV_SYNIC_SINT_MASKED ≠ 0) ∧
    (hv_synic_sint.auto_eoi raw = 1 ↔ raw &&& HV_SYNIC_SINT_AUTO_EOI ≠ 0) ∧
    hv_synic_scontrol.enable raw = raw &&& HV_SYNIC_CONTROL_ENABLE ∧
    hv_synic_simp.simp_enabled raw = raw &&& HV_SYNIC_SIMP_ENABLE ∧
    hv_synic_siefp.siefp_enabled raw = raw &&& HV_SYNIC_SIEFP_ENABLE ∧
    hv_x64_msr_hypercall_contents.enable raw = raw &&& HV_X64_MSR_HYPERCALL_ENABLE ∧
    hv_x64_msr_hypercall_contents.guest_physical_address raw
        <<< HV_X64_MSR_HYPERCALL_PAGE_ADDRESS_SHIFT
      = raw &&& HV_X64_MSR_HYPERCALL_PAGE_ADDRESS_MASK ∧
    raw &&& HV_X64_MSR_HYPERCALL_PAGE_ADDRESS_MASK = raw &&& HV_HYP_PAGE_MASK := by
  have hbit0 : extract raw 0 1 = raw &&& 1 := by
    rw [Nat.and_one_is_mod]
    rfl
  have hgpa : hv_x64_msr_hypercall_contents.guest_physical_address raw = raw >>> 12 := by
    show extract raw 12 52 = _
    rw [extract]
    apply Nat.mod_eq_of_lt
    rw [Nat.shiftRight_eq_div_pow]
    omega
  refine ⟨?_, ?_, ?_, hbit0, hbit0, hbit0, hbit0, ?_, ?_⟩
  · show extract raw 0 8 = raw &&& (2 ^ 8 - 1)
    rw [Nat.and_pow_two_sub_one_eq_mod]
    rfl
  · exact (and_two_pow_ne_zero_iff raw 16).symm
  · exact (and_two_pow_ne_zero_iff raw 17).symm
  · rw [hgpa]
    exact shiftLeft_shiftRight_eq_and_not64 raw 12 h
  · have : HV_X64_MSR_HYPERCALL_PAGE_ADDRESS_MASK = HV_HYP_PAGE_MASK := by decide
    rw [this]

/-- C17 at raw = 0x30fe (vector 0xfe with bits 12 and 13 set): as a SINT value the vector
is raw & 0xFF and masked is 0 as raw & HV_SYNIC_SINT_MASKED is 0; as a hypercall MSR value
the page address field shifted left by 12 is raw & HV_X64_MSR_HYPERCALL_PAGE_ADDRESS_MASK. -/
theorem masks_agree_with_bitfields_witness :
    (0x30fe : Nat) < 2 ^ 64 ∧
    hv_synic_sint.vector 0x30fe = 0x30fe &&& HV_SYNIC_SINT_VECTOR_MASK ∧
    (hv_synic_sint.masked 0x30fe = 1 ↔ 0x30fe &&& HV_SYNIC_SINT_MASKED ≠ 0) ∧
    hv_x64_msr_hypercall_contents.guest_physical_address 0x30fe
        <<< HV_X64_MSR_HYPERCALL_PAGE_ADDRESS_SHIFT
      = 0x30fe &&& HV_X64_MSR_HYPERCALL_PAGE_ADDRESS_MASK :=
  ⟨by norm_num, (masks_agree_with_bitfields 0x30fe (by norm_num)).1,
    (masks_agree_with_bitfields 0x30fe (by norm_num)).2.1,
    (masks_agree_with_bitfields 0x30fe (by norm_num)).2.2.2.2.2.2.2.1⟩

/-- C18: for every raw synthetic-timer configuration the decoded sintx field of union
hv_stimer_config is below HV_SYNIC_SINT_COUNT (16), so slot sintx of the sint_message
array lies inside struct hv_message_page; the decoded vector / apic_vector fields of
hv_synic_sint, hv_stimer_config and hv_reenlightenment_control never exceed
HV_IPI_HIGH_VECTOR (0xff); and HV_SYNIC_FIRST_VALID_VECTOR equals HV_IPI_LOW_VECTOR (16). -/
theorem decoded_indices_in_range (raw : Nat) :
    hv_stimer_config.sintx raw < HV_SYNIC_SINT_COUNT ∧
    HV_SYNIC_SINT_COUNT = 16 ∧
    hv_message_page.sint_message_offset (hv_stimer_config.sintx raw) + hv_message.size
      ≤ hv_message_page.size ∧
    hv_synic_sint.vector raw ≤ HV_IPI_HIGH_VECTOR ∧
    hv_stimer_config.apic_vector raw ≤ HV_IPI_HIGH_VECTOR ∧
    hv_reenlightenment_control.vector raw ≤ HV_IPI_HIGH_VECTOR ∧
    HV_IPI_HIGH_VECTOR = 0xff ∧
    HV_SYNIC_FIRST_VALID_VECTOR = HV_IPI_LOW_VECTOR ∧
    HV_IPI_LOW_VECTOR = 16 := by
  have hs : hv_stimer_config.sintx raw < 16 := by
    show extract raw 16 4 < 16
    exact Nat.mod_lt _ (by norm_num)
  have h1 : hv_synic_sint.vector raw < 256 := by
    show extract raw 0 8 < 256
    exact Nat.mod_lt _ (by norm_num)
  have h2 : hv_stimer_config.apic_vector raw < 256 := by
    show extract raw 4 8 < 256
    exact Nat.mod_lt _ (by norm_num)
  have h3 : hv_reenlightenment_control.vector raw < 256 := by
    show extract raw 0 8 < 256
    exact Nat.mod_lt _ (by norm_num)
  have hm : hv_message.size = 256 := by decide
  have hp : hv_message_page.size = 4096 := by decide
  have ho : ∀ i, hv_message_page.sint_message_offset i = 256 * i := by
    intro i
    have h0 : offsetof hv_message_page.members 0 = 0 := by decide
    simp only [hv_message_page.sint_message_offset, elem_offset, hm, h0]
    omega
  have hhi : HV_IPI_HIGH_VECTOR = 255 := rfl
  refine ⟨hs, rfl, ?_, ?_, ?_, ?_, rfl, rfl, rfl⟩
  · rw [ho, hm, hp]
    omega
  · omega
  · omega
  · omega

/-- C19: HV_MAX_FLUSH_REP_COUNT (510) is at most 0xfff, the largest value of the 12-bit
rep-comp field (HV_HYPERCALL_REP_COMP_MASK >> HV_HYPERCALL_REP_COMP_OFFSET) and of the
12-bit rep-start field (HV_HYPERCALL_REP_START_MASK >> HV_HYPERCALL_REP_START_OFFSET), so
for every count n <= HV_MAX_FLUSH_REP_COUNT, placing n in either rep field of any control
word and extracting it again returns n. -/
theorem flush_count_fits_rep_fields (raw n : Nat) (hn : n ≤ HV_MAX_FLUSH_REP_COUNT) :
    HV_MAX_FLUSH_REP_COUNT = 510 ∧
    HV_MAX_FLUSH_REP_COUNT ≤ 0xfff ∧
    HV_HYPERCALL_REP_COMP_MASK >>> HV_HYPERCALL_REP_COMP_OFFSET = 0xfff ∧
    HV_HYPERCALL_REP_START_MASK >>> HV_HYPERCALL_REP_START_OFFSET = 0xfff ∧
    rep_comp (set_rep_comp raw n) = n ∧
    rep_start (set_rep_start raw n) = n := by
  have hc : HV_MAX_FLUSH_REP_COUNT = 510 := by decide
  have hlt : n < 2 ^ 12 := by
    rw [hc] at hn
    omega
  refine ⟨hc, by decide, by decide, by decide, ?_, ?_⟩
  · simp only [rep_comp, set_rep_comp]
    rw [rep_comp_mask_eq]
    exact set_field_extract raw _ 12 n hlt
  · simp only [rep_start, set_rep_start]
    rw [rep_start_mask_eq]
    exact set_field_extract raw _ 12 n hlt

/-- C19 at the full flush list: 510 placed in the rep-comp field of the control word
0x0fff0fff0001ffff, or in its rep-start field, is read back as 510. -/
theorem flush_count_fits_rep_fields_witness :
    510 ≤ HV_MAX_FLUSH_REP_COUNT ∧
    rep_comp (set_rep_comp 0x0fff0fff0001ffff 510) = 510 ∧
    rep_start (set_rep_start 0x0fff0fff0001ffff 510) = 510 :=
  ⟨by decide, (flush_count_fits_rep_fields 0x0fff0fff0001ffff 510 (by decide)).2.2.2.2.1,
    (flush_count_fits_rep_fields 0x0fff0fff0001ffff 510 (by decide)).2.2.2.2.2⟩

set_option maxRecDepth 100000

/-- C20: under natural alignment struct hv_enlightened_vmcs is exactly 1024 bytes: every
member lands on an offset that is a multiple of its alignment (its own size for a scalar,
the element size for an array), the only padding is one 4-byte gap between hv_vp_id
(offset 840, ending at 844) and hv_vm_id (offset 848), there is no padding at the end,
revision_id is at offset 0 and hv_clean_fields at offset 824, and the record fits in one
HV_HYP_PAGE_SIZE page. -/
theorem enlightened_vmcs_layout :
    hv_enlightened_vmcs.members.length = 146 ∧
    hv_enlightened_vmcs.size = 1024 ∧
    endFrom 0 hv_enlightened_vmcs.members = 1024 ∧
    (∀ i, i < 146 →
      offsetof hv_enlightened_vmcs.members i
        % (hv_enlightened_vmcs.members.getD i uint8_t).align = 0) ∧
    paddingFrom 0 hv_enlightened_vmcs.members
      = List.replicate 139 0 ++ [4] ++ List.replicate 6 0 ∧
    (hv_enlightened_vmcs.members.map CObj.size).sum + 4 = 1024 ∧
    offsetof hv_enlightened_vmcs.members hv_enlightened_vmcs.idx_revision_id = 0 ∧
    offsetof hv_enlightened_vmcs.members hv_enlightened_vmcs.idx_hv_clean_fields = 824 ∧
    offsetof hv_enlightened_vmcs.members hv_enlightened_vmcs.idx_hv_vp_id = 840 ∧
    (hv_enlightened_vmcs.members.getD hv_enlightened_vmcs.idx_hv_vp_id uint8_t).size = 4 ∧
    offsetof hv_enlightened_vmcs.members hv_enlightened_vmcs.idx_hv_vm_id = 848 ∧
    hv_enlightened_vmcs.idx_hv_vm_id = hv_enlightened_vmcs.idx_hv_vp_id + 1 ∧
    hv_enlightened_vmcs.size ≤ HV_HYP_PAGE_SIZE := by
  refine ⟨by decide, by decide, by decide, by decide, by decide, by decide, by decide,
    by decide, by decide, by decide, by decide, by decide, by decide⟩

/-- C21: for every valid_bank_mask the number of trailing bank_contents words (its
population count over 64 bits) is at most 64, so struct hv_vpset occupies at most
16 + 8*64 = 528 bytes, struct hv_send_ipi_ex at most 536 bytes and struct hv_tlb_flush_ex
at most 544 bytes, all strictly below HV_HYP_PAGE_SIZE; the bounds are reached by the
all-ones mask; and the set formats HV_GENERIC_SET_SPARSE_4K (0) and HV_GENERIC_SET_ALL (1)
are distinct. -/
theorem vpset_fits_in_page (valid_bank_mask : Nat) :
    bank_count valid_bank_mask ≤ 64 ∧
    (∀ n, hv_vpset.bytes n = 16 + 8 * n) ∧
    (∀ n, hv_send_ipi_ex.bytes n = 8 + (16 + 8 * n)) ∧
    (∀ n, hv_tlb_flush_ex.bytes n = 16 + (16 + 8 * n)) ∧
    hv_vpset.bytes (bank_count valid_bank_mask) ≤ 528 ∧
    hv_send_ipi_ex.bytes (bank_count valid_bank_mask) ≤ 536 ∧
    hv_tlb_flush_ex.bytes (bank_count valid_bank_mask) ≤ 544 ∧
    hv_vpset.bytes (bank_count valid_bank_mask) < HV_HYP_PAGE_SIZE ∧
    hv_send_ipi_ex.bytes (bank_count valid_bank_mask) < HV_HYP_PAGE_SIZE ∧
    hv_tlb_flush_ex.bytes (bank_count valid_bank_mask) < HV_HYP_PAGE_SIZE ∧
    (bank_count (2 ^ 64 - 1) = 64 ∧ hv_vpset.bytes (bank_count (2 ^ 64 - 1)) = 528 ∧
      hv_send_ipi_ex.bytes (bank_count (2 ^ 64 - 1)) = 536 ∧
      hv_tlb_flush_ex.bytes (bank_count (2 ^ 64 - 1)) = 544) ∧
    hv_vpset.size = 16 ∧ hv_send_ipi_ex.size = 24 ∧ hv_tlb_flush_ex.size = 32 ∧
    HV_GENERIC_SET_SPARSE_4K = 0 ∧ HV_GENERIC_SET_ALL = 1 ∧
    HV_GENERIC_SET_SPARSE_4K ≠ HV_GENERIC_SET_ALL := by
  have hb : bank_count valid_bank_mask ≤ 64 := by
    have h := List.length_filter_le (fun i => valid_bank_mask.testBit i) (List.range 64)
    rw [List.length_range] at h
    exact h
  have h1 : ∀ n, hv_vpset.bytes n = 16 + 8 * n := by
    intro n
    have h0 : offsetof hv_vpset.members 2 = 16 := by decide
    have h8 : uint64_t.size = 8 := rfl
    simp only [hv_vpset.bytes, elem_offset, h0, h8]
    omega
  have h2 : ∀ n, hv_send_ipi_ex.bytes n = 8 + (16 + 8 * n) := by
    intro n
    have h0 : offsetof hv_send_ipi_ex.members 2 = 8 := by decide
    simp only [hv_send_ipi_ex.bytes, h0, h1]
  have h3 : ∀ n, hv_tlb_flush_ex.bytes n = 16 + (16 + 8 * n) := by
    intro n
    have h0 : offsetof hv_tlb_flush_ex.members 2 = 16 := by decide
    simp only [hv_tlb_flush_ex.bytes, h0, h1]
  have hp : HV_HYP_PAGE_SIZE = 4096 := by decide
  have hall : bank_count (2 ^ 64 - 1) = 64 := by decide
  refine ⟨hb, h1, h2, h3, ?_, ?_, ?_, ?_, ?_, ?_, ⟨hall, ?_, ?_, ?_⟩, by decide, by decide,
    by decide, rfl, rfl, by decide⟩
  · rw [h1]; omega
  · rw [h2]; omega
  · rw [h3]; omega
  · rw [h1, hp]; omega
  · rw [h2, hp]; omega
  · rw [h3, hp]; omega
  · rw [h1, hall]
  · rw [h2, hall]
  · rw [h3, hall]

/-- C22: with NSEC_PER_SEC = 1000000000, HV_CLOCK_HZ = NSEC_PER_SEC / 100 is 10000000
with no remainder (NSEC_PER_SEC % 100 == 0) and NSEC_PER_SEC / HV_CLOCK_HZ == 100, so one
tick is exactly 100 ns, and converting t ticks to nanoseconds as t * 100 and back as
ns / 100 is the identity for every tick count t whose product t * 100 does not overflow
64 bits; the first tick count past that bound, 184467440737095517, is not recovered. -/
theorem clock_tick_is_100ns (t : Nat) (ht : t * 100 < 2 ^ 64) :
    NSEC_PER_SEC = 1000000000 ∧
    HV_CLOCK_HZ NSEC_PER_SEC = 10000000 ∧
    NSEC_PER_SEC % 100 = 0 ∧
    HV_CLOCK_HZ NSEC_PER_SEC * 100 = NSEC_PER_SEC ∧
    NSEC_PER_SEC / HV_CLOCK_HZ NSEC_PER_SEC = 100 ∧
    NSEC_PER_SEC % HV_CLOCK_HZ NSEC_PER_SEC = 0 ∧
    ticks_to_ns t = t * 100 ∧
    ns_to_ticks (ticks_to_ns t) = t ∧
    ns_to_ticks (ticks_to_ns 184467440737095517) ≠ 184467440737095517 := by
  have h100 : NSEC_PER_SEC / HV_CLOCK_HZ NSEC_PER_SEC = 100 := by decide
  have hns : ticks_to_ns t = t * 100 := by
    simp only [ticks_to_ns, h100]
    exact Nat.mod_eq_of_lt ht
  refine ⟨rfl, by decide, by decide, by decide, h100, by decide, hns, ?_, by decide⟩
  rw [hns]
  simp only [ns_to_ticks, h100]
  omega

/-- C22 at the largest tick count whose nanosecond value fits 64 bits,
t = 184467440737095516: it converts to 18446744073709551600 ns and back to t. -/
theorem clock_tick_is_100ns_witness :
    184467440737095516 * 100 < 2 ^ 64 ∧
    ticks_to_ns 184467440737095516 = 184467440737095516 * 100 ∧
    ns_to_ticks (ticks_to_ns 184467440737095516) = 184467440737095516 :=
  ⟨by norm_num, (clock_tick_is_100ns 184467440737095516 (by norm_num)).2.2.2.2.2.2.1,
    (clock_tick_is_100ns 184467440737095516 (by norm_num)).2.2.2.2.2.2.2.1⟩

end HyperV
